import Mathlib

/-!
Shallow embedding of the net_models repository core:
`src/net_models/models/interfaces/L3InterfaceModels.py` (pydantic models and
their validators) and `src/net_models/loaders/ExcelLoader.py` (per-row loader
logic).  Machine integers are modelled as `Nat` (Python integers are
arbitrary-precision, so no wrap-around is involved); fallible constructors
and row processors return `Except`/`Option` errors mirroring the Python
exceptions they raise.
-/

namespace NetModels

/-- Errors a loader/model operation can produce.  The first group models the
concrete Python exceptions raised by the sources (pydantic validators raise
`AssertionError`; attribute access on `None` raises `AttributeError`; a
missing dict key raises `KeyError`; `list[0]` on an empty list raises
`IndexError`).  The second group holds the abstract error names used by the
specification's error taxonomy; no code path in the sources produces them,
they exist so that statements can compare the code's actual failure against
the spec's named failure. -/
inductive PyError where
  /-- `AssertionError` from `InterfaceIPv4Container.validate_non_overlapping`. -/
  | assertionOverlap
  /-- `AssertionError` from `InterfaceIPv4Container.validate_single_primary`. -/
  | assertionMultiplePrimary
  /-- `AssertionError` from `InterfaceOspfConfig.validate_process_and_area`
      ("When 'process_id' is set, 'area' is required."). -/
  | assertionOspfAreaRequired
  /-- `AssertionError` from `InterfaceOspfConfig.validate_process_and_area`
      ("When 'area' is set, 'process_id' is required."). -/
  | assertionOspfProcessRequired
  /-- pydantic `constr(max_length=8)` violation on `KeyOspf.value`. -/
  | assertionKeyTooLong
  /-- `AttributeError`: attribute access on `None` (argument = attribute name). -/
  | attributeError (attr : String)
  /-- `KeyError` on a dict subscript (argument = key). -/
  | keyError (key : String)
  /-- `IndexError` on list subscripting. -/
  | indexError
  /-- Spec taxonomy: host/interface lookup miss in the inventory accessor. -/
  | unknownEntity
  /-- Spec taxonomy name; the sources never raise it. -/
  | unknownTemplate
  /-- Spec taxonomy name; the sources never raise it. -/
  | missingBgpProcess
  /-- Spec taxonomy name; the sources never raise it. -/
  | invalidAddressing
deriving DecidableEq, Repr

/-- The spec's `AddressConflict` names the deliberate validation failures of
`InterfaceIPv4Container` (overlap or duplicate primary). -/
def PyError.isAddressConflict : PyError → Bool
  | .assertionOverlap => true
  | .assertionMultiplePrimary => true
  | _ => false

/-- True for `AttributeError` values. -/
def PyError.isAttributeError : PyError → Bool
  | .attributeError _ => true
  | _ => false

/-! ## IPv4 arithmetic (Python `ipaddress`) -/

/-- Python `ipaddress.IPv4Interface`: an address together with the prefix
length of its network. -/
structure IPv4Interface where
  ip : Nat
  prefixlen : Nat
deriving DecidableEq, Repr

namespace IPv4Interface

/-- Number of addresses in the interface's network: `2 ^ (32 - prefixlen)`. -/
def blockSize (i : IPv4Interface) : Nat := 2 ^ (32 - i.prefixlen)

/-- `int(i.network.network_address)`: the ip with the host bits cleared. -/
def networkAddress (i : IPv4Interface) : Nat := i.ip - i.ip % i.blockSize

/-- `int(i.network.broadcast_address)`. -/
def broadcastAddress (i : IPv4Interface) : Nat := i.networkAddress + i.blockSize - 1

/-- Python `x in i.network` for an address `x`
(`other._ip & netmask == network_address`). -/
def containsIp (i : IPv4Interface) (x : Nat) : Bool :=
  decide (x - x % i.blockSize = i.networkAddress)

end IPv4Interface

/-- Python `a.address in b.address.network` where `a`, `b` are
`IPv4Interface` values (the left operand contributes only its ip). -/
def inNetwork (a b : IPv4Interface) : Bool := b.containsIp a.ip

/-- Semantic (spec-level) network overlap: the two CIDR address intervals
intersect. -/
def netsOverlap (a b : IPv4Interface) : Bool :=
  decide (max a.networkAddress b.networkAddress ≤
          min a.broadcastAddress b.broadcastAddress)

/-- Python `ipaddress.IPv4Network`: a network address plus prefix length. -/
structure IPv4Network where
  network_address : Nat
  prefixlen : Nat
deriving DecidableEq, Repr

namespace IPv4Network

/-- Number of addresses in the network. -/
def blockSize (n : IPv4Network) : Nat := 2 ^ (32 - n.prefixlen)

/-- `int(n.broadcast_address)`. -/
def broadcastAddress (n : IPv4Network) : Nat := n.network_address + n.blockSize - 1

/-- Python `list(n.hosts())` (CPython ≥ 3.8): all addresses strictly between
network and broadcast address, except that a /31 yields both of its two
addresses and a /32 yields its single address. -/
def hosts (n : IPv4Network) : List Nat :=
  if n.prefixlen = 31 then [n.network_address, n.network_address + 1]
  else if n.prefixlen = 32 then [n.network_address]
  else List.range' (n.network_address + 1) (n.blockSize - 2)

end IPv4Network

/-! ## pydantic models from `L3InterfaceModels.py` -/

/-- `InterfaceIPv4Address`: an address plus the optional `secondary` flag. -/
structure InterfaceIPv4Address where
  address : IPv4Interface
  secondary : Option Bool := none
deriving DecidableEq, Repr

/-- `InterfaceDhcpClientConfig`. -/
structure InterfaceDhcpClientConfig where
  enabled : Option Bool := none
deriving DecidableEq, Repr

/-- `InterfaceIPv4Container`: optional address list, unnumbered source and
dhcp-client config. -/
structure InterfaceIPv4Container where
  addresses : Option (List InterfaceIPv4Address) := none
  unnumbered : Option String := none
  dhcp_client : Option InterfaceDhcpClientConfig := none
deriving DecidableEq, Repr

/-- Body of `InterfaceIPv4Container.validate_non_overlapping`: for each
address, compare it against every other list member (Python removes the
first occurrence equal to the current address) and flag it when its ip lies
inside the other's network. -/
def overlapFound (addresses : List InterfaceIPv4Address) : Bool :=
  addresses.any fun address =>
    (addresses.erase address).any fun other_address =>
      inNetwork address.address other_address.address

/-- An address with `secondary` ∈ {False, None} counts as primary
(`validate_single_primary`). -/
def isPrimary (a : InterfaceIPv4Address) : Bool :=
  a.secondary = some false ∨ a.secondary = none

/-- Body of `InterfaceIPv4Container.validate_single_primary` (only reached
for lists of length ≠ 1): more than one primary address is an error. -/
def multiplePrimaryFound (addresses : List InterfaceIPv4Address) : Bool :=
  if addresses.length = 1 then false
  else decide (1 < (addresses.filter isPrimary).length)

/-- The two root validators of `InterfaceIPv4Container`, run in declaration
order; `None` addresses skip both checks. -/
def validateContainer (c : InterfaceIPv4Container) : Option PyError :=
  match c.addresses with
  | none => none
  | some addresses =>
      if overlapFound addresses then some .assertionOverlap
      else if multiplePrimaryFound addresses then some .assertionMultiplePrimary
      else none

/-- Constructing an `InterfaceIPv4Container` runs its root validators. -/
def mkInterfaceIPv4Container (addresses : Option (List InterfaceIPv4Address))
    (unnumbered : Option String := none)
    (dhcp_client : Option InterfaceDhcpClientConfig := none) :
    Except PyError InterfaceIPv4Container :=
  let c : InterfaceIPv4Container :=
    { addresses := addresses, unnumbered := unnumbered, dhcp_client := dhcp_client }
  match validateContainer c with
  | some e => .error e
  | none => .ok c

/-- `KeyOspf`: value is a string of at most 8 characters; a longer input is
silently cut to its first 8 characters by the `truncate_value` pre-validator
before the `constr(max_length=8)` check runs.  Python strings are modelled
as their character lists. -/
structure KeyOspf where
  value : List Char
deriving DecidableEq, Repr

/-- Constructing a `KeyOspf`: run `truncate_value`, then the
`constr(max_length=8)` length check. -/
def mkKeyOspf (value : List Char) : Except PyError KeyOspf :=
  let value := if value.length > 8 then value.take 8 else value
  if value.length ≤ 8 then .ok { value := value }
  else .error .assertionKeyTooLong

/-- `InterfaceOspfAuthentication` (fields only; its validator is not needed
by any claim but is kept for completeness below). -/
structure InterfaceOspfAuthentication where
  method : Option String := none
  keychain : Option String := none
  key : Option KeyOspf := none
deriving DecidableEq, Repr

/-- `InterfaceOspfTimers`. -/
structure InterfaceOspfTimers where
  hello : Option Nat := none
  dead : Option Nat := none
  retransmit : Option Nat := none
deriving DecidableEq, Repr

/-- `InterfaceOspfConfig` fields. -/
structure InterfaceOspfConfig where
  process_id : Option Int := none
  area : Option Int := none
  network_type : Option String := none
  cost : Option Int := none
  priority : Option Int := none
  authentication : Option InterfaceOspfAuthentication := none
  timers : Option InterfaceOspfTimers := none
  bfd : Option Bool := none
deriving DecidableEq, Repr

/-- `InterfaceOspfConfig.validate_process_and_area`: `process_id` set without
`area` (or vice versa) is an error. -/
def validate_process_and_area (c : InterfaceOspfConfig) : Option PyError :=
  if c.process_id.isSome ∧ c.area = none then some .assertionOspfAreaRequired
  else if c.process_id = none ∧ c.area.isSome then some .assertionOspfProcessRequired
  else none

/-- Constructing an `InterfaceOspfConfig` runs its root validator. -/
def mkInterfaceOspfConfig (process_id area : Option Int)
    (network_type : Option String := none) (cost : Option Int := none)
    (priority : Option Int := none)
    (authentication : Option InterfaceOspfAuthentication := none)
    (timers : Option InterfaceOspfTimers := none)
    (bfd : Option Bool := none) : Except PyError InterfaceOspfConfig :=
  let c : InterfaceOspfConfig :=
    { process_id := process_id, area := area, network_type := network_type,
      cost := cost, priority := priority, authentication := authentication,
      timers := timers, bfd := bfd }
  match validate_process_and_area c with
  | some e => .error e
  | none => .ok c

/-- `InterfaceBfdConfig`. -/
structure InterfaceBfdConfig where
  template : String
deriving DecidableEq, Repr

/-- `InterfaceIsisConfig` (opaque to every claim; fields kept minimal). -/
structure InterfaceIsisConfig where
  network_type : Option String := none
  circuit_type : Option String := none
deriving DecidableEq, Repr

/-- `InterfaceIPv6Container` (opaque to every claim). -/
structure InterfaceIPv6Container where
  addresses : Option (List Nat) := none
deriving DecidableEq, Repr

/-- `InterfaceRouteportModel`.  The `ospf` field holds a heap address (see
`OspfHeap` below): Python stores an object reference there, and claim C5 is
about reference aliasing, so OSPF configs live in an explicit heap. -/
structure InterfaceRouteportModel where
  ipv4 : Option InterfaceIPv4Container := none
  ipv6 : Option InterfaceIPv6Container := none
  vrf : Option String := none
  ip_mtu : Option Int := none
  ospf : Option Nat := none
  isis : Option InterfaceIsisConfig := none
  bfd : Option InterfaceBfdConfig := none
deriving DecidableEq, Repr

/-- `InterfaceRouteportModel.add_ipv4_address`: create the container and its
address list when absent, append the new address to the list in place, then
re-validate by cloning (`self.ipv4 = self.ipv4.clone()`).  The clone's
validation failure propagates as an exception, but the in-place append has
already happened, so the returned routeport always carries the appended
list.  `clone` itself is not under the sources; it is modelled from the
spec: "appends an `IPv4Address` to the port's IPv4 container (creating the
container if absent), then re-validates the container's invariants". -/
def add_ipv4_address (rp : InterfaceRouteportModel) (address : InterfaceIPv4Address) :
    InterfaceRouteportModel × Option PyError :=
  let c := match rp.ipv4 with
    | none => ({} : InterfaceIPv4Container)
    | some c => c
  let addrs := match c.addresses with
    | none => []
    | some l => l
  let c := { c with addresses := some (addrs ++ [address]) }
  ({ rp with ipv4 := some c }, validateContainer c)

/-- Wrapper used by the loaders: a raw `ipaddress.IPv4Interface` argument is
wrapped as `InterfaceIPv4Address(address=...)` (secondary stays `None`). -/
def add_ipv4_address_raw (rp : InterfaceRouteportModel) (address : IPv4Interface) :
    InterfaceRouteportModel × Option PyError :=
  add_ipv4_address rp { address := address }

/-! ## Inventory model (collaborators of `ExcelLoader`)

The inventory (`BaseLoader.get_host` / `get_interface`), the host/interface
models and the BGP models are not under the sources; they are modelled from
the spec.
-/

/-- `InterfaceNeighbor`: (peer host name, peer interface name). -/
structure InterfaceNeighbor where
  host : String
  interface : String
deriving DecidableEq, Repr

/-- `InterfaceCdpConfig`. -/
structure InterfaceCdpConfig where
  enabled : Option Bool := none
deriving DecidableEq, Repr

/-- `InterfaceDiscoveryProtocols`, holding the CDP config. -/
structure InterfaceDiscoveryProtocols where
  cdp : Option InterfaceCdpConfig := none
deriving DecidableEq, Repr

/-- `InterfaceLagMemberConfig`: LAG group id and mode. -/
structure InterfaceLagMemberConfig where
  group : Nat
  mode : String
deriving DecidableEq, Repr

/-- Modelled from the spec: an `Interface` has identity (host name,
interface name) and carries description, neighbor relation,
discovery-protocol settings, LAG-member info and the routed-port
sub-model. -/
structure InterfaceModel where
  name : String
  description : Option String := none
  neighbor : Option InterfaceNeighbor := none
  discovery_protocols : Option InterfaceDiscoveryProtocols := none
  lag_member : Option InterfaceLagMemberConfig := none
  l3_port : Option InterfaceRouteportModel := none
deriving DecidableEq, Repr

/-- Modelled from the spec: `BgpPeerGroup` is a named template of BGP
session parameters. -/
structure BgpPeerGroup where
  name : String
deriving DecidableEq, Repr

/-- Modelled from the spec: `BgpNeighbor` is a session record that
optionally references a peer-group by name. -/
structure BgpNeighbor where
  peer_group : Option String := none
deriving DecidableEq, Repr

/-- `RoutingBgpProcess`: ASN plus optional neighbor and peer-group lists. -/
structure RoutingBgpProcess where
  asn : Nat
  neighbors : Option (List BgpNeighbor) := none
  peer_groups : Option (List BgpPeerGroup) := none
deriving DecidableEq, Repr

/-- `RoutingConfig`, owner of the optional BGP process. -/
structure RoutingConfig where
  bgp : Option RoutingBgpProcess := none
deriving DecidableEq, Repr

/-- `HostConfig`, owner of the optional routing config. -/
structure HostConfig where
  routing : Option RoutingConfig := none
deriving DecidableEq, Repr

/-- Modelled from the spec: a `Host` has a unique name and zero-or-one
config. -/
structure Host where
  name : String
  config : Option HostConfig := none
deriving DecidableEq, Repr

/-- Interfaces are identified inventory-wide by (host name, interface
name). -/
abbrev IfKey := String × String

/-- The interface side of the inventory: a lookup-by-key map.  Modelled from
the spec: `getInterface(hostName, ifName)` returns the interface or fails
`UnknownEntity`; interfaces are looked up, never created, by this core. -/
abbrev IfMap := IfKey → Option InterfaceModel

/-- The host side of the inventory (`getHost`). -/
abbrev HostMap := String → Option Host

/-- Overwrite the interface stored under a key. -/
def setIface (itf : IfMap) (k : IfKey) (m : InterfaceModel) : IfMap :=
  fun q => if q = k then some m else itf q

/-- Mutate the interface object stored under a key (Python mutates the
object returned by a successful lookup, so the key is always present when
this runs; an absent key is left untouched). -/
def updIface (itf : IfMap) (k : IfKey) (f : InterfaceModel → InterfaceModel) : IfMap :=
  match itf k with
  | some m => setIface itf k (f m)
  | none => itf

/-- Overwrite the host stored under a name. -/
def setHost (hosts : HostMap) (h : String) (v : Host) : HostMap :=
  fun q => if q = h then some v else hosts q

/-- The heap of `InterfaceOspfConfig` objects: Python object references
into it are `Nat` addresses.  `clone()` allocates a fresh cell holding the
same value (modelled from the spec: "every application makes an independent
value copy"). -/
abbrev OspfHeap := List InterfaceOspfConfig

/-- Read a heap cell. -/
def heapAt (h : OspfHeap) (a : Nat) : Option InterfaceOspfConfig := h[a]?

/-- Overwrite a heap cell: a mutation of the object living at that
address. -/
def heapWrite (h : OspfHeap) (a : Nat) (v : InterfaceOspfConfig) : OspfHeap :=
  h.set a v

/-- Loader-side state threaded through `load_l3_links` row processing:
the inventory, the OSPF object heap, and `self.templates['ospf']`
(`none` when the `'ospf'` key was never created, i.e.
`load_ospf_templates` never ran). -/
structure LoaderState where
  hosts : HostMap
  interfaces : IfMap
  heap : OspfHeap := []
  templates_ospf : Option (List (String × Nat)) := none

/-- First value stored under a name in the template registry
(`dict` lookup). -/
def regLookup (reg : List (String × Nat)) (name : String) : Option Nat :=
  (reg.find? fun p => p.1 = name).map (·.2)

/-! ## `ExcelLoader.load_physical_links` row processing -/

/-- One decoded row of the `physical_links` sheet.  `cdp_enabled` is doubly
optional: the outer layer models whether the column exists at all
(`'cdp_enabled' in row.keys()`), the inner layer a null cell. -/
structure PhysicalLinkRow where
  a_host : String
  a_interface : String
  a_description : Option String := none
  a_lag_group : Option Nat := none
  a_lag_mode : Option String := none
  z_host : String
  z_interface : String
  z_description : Option String := none
  z_lag_group : Option Nat := none
  z_lag_mode : Option String := none
  cdp_enabled : Option (Option Bool) := none
deriving DecidableEq, Repr

/-- `f"Port-channel{group}"`. -/
def pcName (group : Nat) : String := "Port-channel" ++ toString group

/-- CDP helper of the loop body: set the discovery-protocol config from the
flag only when it is currently unset. -/
def setDiscoveryIfUnset (cdp_config : InterfaceCdpConfig) (m : InterfaceModel) :
    InterfaceModel :=
  match m.discovery_protocols with
  | none => { m with discovery_protocols := some { cdp := some cdp_config } }
  | some _ => m

/-- CDP section of the `load_physical_links` loop body (ExcelLoader lines
106–118): when the `cdp_enabled` column is present and non-null, apply it
first-write-wins to both end interfaces. -/
def physicalCdpStage (itf : IfMap) (aKey zKey : IfKey) (row : PhysicalLinkRow) : IfMap :=
  match row.cdp_enabled with
  | none => itf
  | some none => itf
  | some (some b) =>
    let cdp_config : InterfaceCdpConfig := { enabled := some b }
    let itf := updIface itf aKey (setDiscoveryIfUnset cdp_config)
    updIface itf zKey (setDiscoveryIfUnset cdp_config)

/-- LAG section of the `load_physical_links` loop body (ExcelLoader lines
121–137): per side, resolve the sibling Port-channel interface and set
LAG-member info; when both sides are LAG members, also write the symmetric
neighbor relation between the two Port-channel interfaces. -/
def physicalLagStage (itf : IfMap) (a_host_name z_host_name : String)
    (aKey zKey : IfKey) (default_lag_mode : String) (row : PhysicalLinkRow) :
    IfMap × Option PyError :=
  match row.a_lag_group with
  | some ga =>
    (match itf (a_host_name, pcName ga) with
    | none => (itf, some .unknownEntity)
    | some a_lag =>
      let lag_mode := match row.a_lag_mode with
        | some m => m
        | none => default_lag_mode
      let itf := updIface itf aKey fun m =>
        { m with lag_member := some { group := ga, mode := lag_mode } }
      match row.z_lag_group with
      | some gz =>
        (match itf (z_host_name, pcName gz) with
        | none => (itf, some .unknownEntity)
        | some z_lag =>
          let lag_mode := match row.z_lag_mode with
            | some m => m
            | none => default_lag_mode
          let itf := updIface itf zKey fun m =>
            { m with lag_member := some { group := gz, mode := lag_mode } }
          -- both sides of link are LAG members
          let itf := updIface itf (a_host_name, pcName ga) fun m =>
            { m with neighbor := some { host := z_host_name, interface := z_lag.name } }
          let itf := updIface itf (z_host_name, pcName gz) fun m =>
            { m with neighbor := some { host := a_host_name, interface := a_lag.name } }
          (itf, none))
      | none => (itf, none))
  | none =>
    match row.z_lag_group with
    | some gz =>
      (match itf (z_host_name, pcName gz) with
      | none => (itf, some .unknownEntity)
      | some _ =>
        let lag_mode := match row.z_lag_mode with
          | some m => m
          | none => default_lag_mode
        let itf := updIface itf zKey fun m =>
          { m with lag_member := some { group := gz, mode := lag_mode } }
        (itf, none))
    | none => (itf, none)

/-- Body of the `load_physical_links` per-row loop (ExcelLoader lines
95–137): resolve both ends, write the symmetric neighbor relation, apply
the CDP flag first-write-wins, set LAG membership per side, and when both
sides are LAG members also write the symmetric neighbor relation between
the two Port-channel interfaces.  An exception leaves the mutations applied
so far in place (no rollback), hence the `IfMap × Option PyError` result. -/
def processPhysicalRow (itf : IfMap) (hosts : HostMap) (default_lag_mode : String)
    (row : PhysicalLinkRow) : IfMap × Option PyError :=
  match hosts row.a_host with
  | none => (itf, some .unknownEntity)
  | some a_host =>
  match itf (a_host.name, row.a_interface) with
  | none => (itf, some .unknownEntity)
  | some a_iface =>
  match hosts row.z_host with
  | none => (itf, some .unknownEntity)
  | some z_host =>
  match itf (z_host.name, row.z_interface) with
  | none => (itf, some .unknownEntity)
  | some z_iface =>
    let aKey : IfKey := (a_host.name, row.a_interface)
    let zKey : IfKey := (z_host.name, row.z_interface)
    let itf := updIface itf aKey fun m =>
      { m with neighbor := some { host := z_host.name, interface := z_iface.name } }
    let itf := updIface itf zKey fun m =>
      { m with neighbor := some { host := a_host.name, interface := a_iface.name } }
    let itf := physicalCdpStage itf aKey zKey row
    physicalLagStage itf a_host.name z_host.name aKey zKey default_lag_mode row

/-! ## `ExcelLoader.load_l3_links` row processing -/

/-- One decoded row of the `l3_links` sheet. -/
structure L3LinkRow where
  a_host : String
  a_interface : String
  a_description : Option String := none
  a_vrf : Option String := none
  a_ipv4_address : Option IPv4Interface := none
  z_host : String
  z_interface : String
  z_description : Option String := none
  z_vrf : Option String := none
  z_ipv4_address : Option IPv4Interface := none
  ipv4_network : Option IPv4Network := none
  ospf_template : Option String := none
  bfd_template : Option String := none
deriving DecidableEq, Repr

/-- `GLOBAL_VRFS = [None, 'global']`. -/
def GLOBAL_VRFS : List (Option String) := [none, some "global"]

/-- `if interface.l3_port is None: interface.l3_port = InterfaceRouteportModel()`. -/
def ensureL3Port (m : InterfaceModel) : InterfaceModel :=
  match m.l3_port with
  | none => { m with l3_port := some {} }
  | some _ => m

/-- `if interface.l3_port.ipv4 is None: interface.l3_port.ipv4 =
InterfaceIPv4Container()` (only reached after `ensureL3Port`). -/
def ensureIpv4Container (m : InterfaceModel) : InterfaceModel :=
  match m.l3_port with
  | none => m
  | some p =>
    match p.ipv4 with
    | none => { m with l3_port := some { p with ipv4 := some {} } }
    | some _ => m

/-- `interface.l3_port.add_ipv4_address(addr)` through the inventory map:
read the interface, run the routeport-level append-and-revalidate, store the
mutated routeport back.  The `none` fall-throughs are unreachable for the
loader's call sites (the interface was looked up and its routeport created
just before). -/
def addIpv4OnIface (itf : IfMap) (k : IfKey) (address : InterfaceIPv4Address) :
    IfMap × Option PyError :=
  match itf k with
  | none => (itf, some .unknownEntity)
  | some m =>
    match m.l3_port with
    | none => (itf, some (.attributeError "add_ipv4_address"))
    | some rp =>
      let (rp2, e) := add_ipv4_address rp address
      (setIface itf k { m with l3_port := some rp2 }, e)

/-- Network-derivation branch of the address-assignment section
(ExcelLoader lines 188–191): `usable_ips[0]` with the network's prefix
length to the a side, `usable_ips[-1]` to the z side; an empty usable list
would raise `IndexError`. -/
def l3NetworkDerive (itf : IfMap) (aKey zKey : IfKey) (row : L3LinkRow) :
    IfMap × Option PyError :=
  match row.ipv4_network with
  | some net =>
    (match net.hosts.head?, net.hosts.getLast? with
    | some firstIp, some lastIp =>
      (match addIpv4OnIface itf aKey
          { address := { ip := firstIp, prefixlen := net.prefixlen } } with
      | (itf2, some e) => (itf2, some e)
      | (itf2, none) =>
        addIpv4OnIface itf2 zKey
          { address := { ip := lastIp, prefixlen := net.prefixlen } })
    | _, _ => (itf, some .indexError))
  | none => (itf, none)

/-- Address-assignment section of the `load_l3_links` loop body
(ExcelLoader lines 184–191): explicit pair when both ends give an address,
else derivation from the network CIDR. -/
def l3AddressStage (itf : IfMap) (aKey zKey : IfKey) (row : L3LinkRow) :
    IfMap × Option PyError :=
  match row.a_ipv4_address, row.z_ipv4_address with
  | some aa, some za =>
    (match addIpv4OnIface itf aKey { address := aa } with
    | (itf2, some e) => (itf2, some e)
    | (itf2, none) => addIpv4OnIface itf2 zKey { address := za })
  | _, _ => l3NetworkDerive itf aKey zKey row

/-- OSPF template section of the `load_l3_links` loop body (ExcelLoader
lines 194–197): look the name up in `self.templates['ospf']` and attach an
independent clone to each end's routed port.  A missing `'ospf'` registry
raises `KeyError`; a missing name makes `.get` return `None`, and calling
`.clone()` on it raises `AttributeError`. -/
def l3OspfStage (st : LoaderState) (itf : IfMap) (aKey zKey : IfKey)
    (row : L3LinkRow) : LoaderState × Option PyError :=
  match row.ospf_template with
  | none => ({ st with interfaces := itf }, none)
  | some tname =>
    match st.templates_ospf with
    | none => ({ st with interfaces := itf }, some (.keyError "ospf"))
    | some reg =>
      match regLookup reg tname with
      | none => ({ st with interfaces := itf }, some (.attributeError "clone"))
      | some t =>
        match heapAt st.heap t with
        | none =>
          -- unreachable for loader-built states: registry addresses are allocated
          ({ st with interfaces := itf }, some (.keyError "dangling"))
        | some proto =>
          let aAddr := st.heap.length
          let zAddr := st.heap.length + 1
          let heap := st.heap ++ [proto, proto]
          let itf := updIface itf aKey fun m =>
            { m with l3_port := m.l3_port.map fun p => { p with ospf := some aAddr } }
          let itf := updIface itf zKey fun m =>
            { m with l3_port := m.l3_port.map fun p => { p with ospf := some zAddr } }
          ({ st with interfaces := itf, heap := heap }, none)

/-- BFD template section of the `load_l3_links` loop body (ExcelLoader
lines 198–201): subscripts `self.templates['ospf']` again (KeyError when
absent), then attaches a `InterfaceBfdConfig` naming the template to both
ends. -/
def l3BfdStage (st2 : LoaderState) (aKey zKey : IfKey) (row : L3LinkRow) :
    LoaderState × Option PyError :=
  match row.bfd_template with
  | none => (st2, none)
  | some bname =>
    match st2.templates_ospf with
    | none => (st2, some (.keyError "ospf"))
    | some _ =>
      let itf := updIface st2.interfaces aKey fun m =>
        { m with l3_port := m.l3_port.map fun p =>
            { p with bfd := some { template := bname } } }
      let itf := updIface itf zKey fun m =>
        { m with l3_port := m.l3_port.map fun p =>
            { p with bfd := some { template := bname } } }
      ({ st2 with interfaces := itf }, none)

/-- OSPF then BFD template application (ExcelLoader lines 194–201). -/
def l3TemplateStages (st : LoaderState) (itf : IfMap) (aKey zKey : IfKey)
    (row : L3LinkRow) : LoaderState × Option PyError :=
  match l3OspfStage st itf aKey zKey row with
  | (st2, some e) => (st2, some e)
  | (st2, none) => l3BfdStage st2 aKey zKey row

/-- Address assignment followed by template application (ExcelLoader lines
184–201); an exception from the address stage aborts before the template
sections run. -/
def l3AssignAndTemplates (st : LoaderState) (itf : IfMap) (aKey zKey : IfKey)
    (row : L3LinkRow) : LoaderState × Option PyError :=
  match l3AddressStage itf aKey zKey row with
  | (itf, some e) => ({ st with interfaces := itf }, some e)
  | (itf, none) => l3TemplateStages st itf aKey zKey row

/-- Body of the `load_l3_links` per-row loop (ExcelLoader lines 161–201):
resolve both ends, write the symmetric neighbor relation, ensure routed
ports, place VRFs, create IPv4 containers and assign addresses (explicit
pair, else derived from the network CIDR), then apply OSPF/BFD templates.
An exception leaves the mutations applied so far in place. -/
def processL3Row (st : LoaderState) (row : L3LinkRow) : LoaderState × Option PyError :=
  match st.hosts row.a_host with
  | none => (st, some .unknownEntity)
  | some a_host =>
  match st.hosts row.z_host with
  | none => (st, some .unknownEntity)
  | some z_host =>
  match st.interfaces (row.a_host, row.a_interface) with
  | none => (st, some .unknownEntity)
  | some a_iface =>
  match st.interfaces (row.z_host, row.z_interface) with
  | none => (st, some .unknownEntity)
  | some z_iface =>
    let aKey : IfKey := (row.a_host, row.a_interface)
    let zKey : IfKey := (row.z_host, row.z_interface)
    let itf := st.interfaces
    let itf := updIface itf aKey fun m =>
      { m with neighbor := some { host := z_host.name, interface := z_iface.name } }
    let itf := updIface itf zKey fun m =>
      { m with neighbor := some { host := a_host.name, interface := a_iface.name } }
    -- for interface in interface_list: create the routed port if absent
    let itf := updIface itf aKey ensureL3Port
    let itf := updIface itf zKey ensureL3Port
    -- VRF placement
    let itf := if row.a_vrf ∈ GLOBAL_VRFS then itf
      else updIface itf aKey fun m =>
        { m with l3_port := m.l3_port.map fun p => { p with vrf := row.a_vrf } }
    let itf := if row.z_vrf ∈ GLOBAL_VRFS then itf
      else updIface itf zKey fun m =>
        { m with l3_port := m.l3_port.map fun p => { p with vrf := row.z_vrf } }
    -- Create IPv4 Container if necessary
    let itf :=
      if (row.a_ipv4_address.isSome && row.z_ipv4_address.isSome) || row.ipv4_network.isSome then
        updIface (updIface itf aKey ensureIpv4Container) zKey ensureIpv4Container
      else itf
    -- Assign given addresses, then apply templates
    l3AssignAndTemplates st itf aKey zKey row

/-! ## `ExcelLoader.load_bgp_neighbors` row processing -/

/-- One decoded row of the `bgp_neighbors` sheet (only the fields the loop
reads). -/
structure BgpNeighborRow where
  host : String
  peer_group : Option String := none
deriving DecidableEq, Repr

/-- Body of the `load_bgp_neighbors` per-row loop (ExcelLoader lines
255–269).  The code dereferences `host.config.routing.bgp.neighbors`
without any guard: when the host has no BGP process (no prior
`bgp_routers` row), the first `None` in the chain raises
`AttributeError`. -/
def processBgpNeighborRow (hosts : HostMap) (peer_groups : List BgpPeerGroup)
    (row : BgpNeighborRow) : HostMap × Option PyError :=
  match hosts row.host with
  | none => (hosts, some .unknownEntity)
  | some host =>
    match host.config with
    | none => (hosts, some (.attributeError "routing"))
    | some config =>
      match config.routing with
      | none => (hosts, some (.attributeError "bgp"))
      | some routing =>
        match routing.bgp with
        | none => (hosts, some (.attributeError "neighbors"))
        | some bgp =>
          let bgp := match bgp.neighbors with
            | none => { bgp with neighbors := some [] }
            | some _ => bgp
          let neighbor : BgpNeighbor := { peer_group := row.peer_group }
          let store (b : RoutingBgpProcess) : HostMap :=
            let routing2 : RoutingConfig := { routing with bgp := some b }
            let config2 : HostConfig := { config with routing := some routing2 }
            setHost hosts row.host { host with config := some config2 }
          match neighbor.peer_group with
          | some pgname =>
            (match peer_groups.filter (fun x => x.name = pgname) with
            | [] => (store bgp, some .indexError)
            | peer_group :: _ =>
              let pgs := match bgp.peer_groups with | none => [] | some l => l
              let bgp := { bgp with peer_groups := some (pgs ++ [peer_group]) }
              let nbs := match bgp.neighbors with | none => [] | some l => l
              let bgp := { bgp with neighbors := some (nbs ++ [neighbor]) }
              (store bgp, none))
          | none =>
            let nbs := match bgp.neighbors with | none => [] | some l => l
            let bgp := { bgp with neighbors := some (nbs ++ [neighbor]) }
            (store bgp, none)

/-! ## CIDR arithmetic lemmas -/

lemma blockSize_pos (i : IPv4Interface) : 0 < i.blockSize :=
  pow_pos (by norm_num) _

lemma networkAddress_eq (i : IPv4Interface) :
    i.networkAddress = i.blockSize * (i.ip / i.blockSize) := by
  have h := Nat.div_add_mod i.ip i.blockSize
  unfold IPv4Interface.networkAddress
  omega

/-- Membership in an aligned block of size `s` is a statement about the
quotient by `s`. -/
lemma mem_block_iff {s : Nat} (hs : 0 < s) (k x : Nat) :
    (s * k ≤ x ∧ x ≤ s * k + s - 1) ↔ x / s = k := by
  constructor
  · rintro ⟨h1, h2⟩
    have lo : k * s ≤ x := by rw [Nat.mul_comm]; exact h1
    have he : (k + 1) * s = s * k + s := by ring
    exact Nat.div_eq_of_lt_le lo (by omega)
  · intro h
    have hd := Nat.div_add_mod x s
    have hm := Nat.mod_lt x hs
    rw [h] at hd
    omega

lemma containsIp_iff (i : IPv4Interface) (x : Nat) :
    i.containsIp x = true ↔ x / i.blockSize = i.ip / i.blockSize := by
  have hpos := blockSize_pos i
  have hd := Nat.div_add_mod x i.blockSize
  have hd2 := Nat.div_add_mod i.ip i.blockSize
  unfold IPv4Interface.containsIp
  rw [decide_eq_true_eq, networkAddress_eq]
  constructor
  · intro h
    exact Nat.eq_of_mul_eq_mul_left hpos (by omega)
  · intro h
    rw [h] at hd
    omega

/-- Every address lies inside its own network block. -/
lemma ip_mem_own_block (i : IPv4Interface) :
    i.networkAddress ≤ i.ip ∧ i.ip ≤ i.broadcastAddress := by
  have hpos := blockSize_pos i
  have hm := Nat.mod_lt i.ip hpos
  unfold IPv4Interface.broadcastAddress IPv4Interface.networkAddress
  omega

/-- Quotients agreeing at a finer block size agree at any coarser multiple
of it. -/
lemma div_eq_div_of_dvd {s t x y : Nat} (hst : s ∣ t) (hxy : x / s = y / s) :
    x / t = y / t := by
  obtain ⟨m, rfl⟩ := hst
  rw [← Nat.div_div_eq_div_mul, ← Nat.div_div_eq_div_mul, hxy]

/-- CIDR nesting: two blocks that intersect are nested, so the finer
block's address lies in the coarser block; hence semantic overlap always
shows up as one ip lying in the other's network. -/
lemma netsOverlap_imp_inNetwork (a b : IPv4Interface) (h : netsOverlap a b = true) :
    inNetwork a b = true ∨ inNetwork b a = true := by
  unfold netsOverlap at h
  rw [decide_eq_true_eq] at h
  set x := max a.networkAddress b.networkAddress with hx
  have hxa : a.networkAddress ≤ x ∧ x ≤ a.broadcastAddress :=
    ⟨le_max_left _ _, le_trans h (min_le_left _ _)⟩
  have hxb : b.networkAddress ≤ x ∧ x ≤ b.broadcastAddress :=
    ⟨le_max_right _ _, le_trans h (min_le_right _ _)⟩
  have hdiva : x / a.blockSize = a.ip / a.blockSize := by
    rw [← mem_block_iff (blockSize_pos a)]
    rw [networkAddress_eq] at hxa
    unfold IPv4Interface.broadcastAddress at hxa
    rw [networkAddress_eq] at hxa
    exact hxa
  have hdivb : x / b.blockSize = b.ip / b.blockSize := by
    rw [← mem_block_iff (blockSize_pos b)]
    rw [networkAddress_eq] at hxb
    unfold IPv4Interface.broadcastAddress at hxb
    rw [networkAddress_eq] at hxb
    exact hxb
  rcases le_total (32 - a.prefixlen) (32 - b.prefixlen) with hle | hle
  · left
    have hdvd : a.blockSize ∣ b.blockSize := pow_dvd_pow 2 hle
    rw [inNetwork, containsIp_iff]
    calc a.ip / b.blockSize = x / b.blockSize :=
          div_eq_div_of_dvd hdvd hdiva.symm
      _ = b.ip / b.blockSize := hdivb
  · right
    have hdvd : b.blockSize ∣ a.blockSize := pow_dvd_pow 2 hle
    rw [inNetwork, containsIp_iff]
    calc b.ip / a.blockSize = x / a.blockSize :=
          div_eq_div_of_dvd hdvd hdivb.symm
      _ = a.ip / a.blockSize := hdiva

/-- An ip always lies in its own network, so `inNetwork` is reflexive. -/
lemma inNetwork_self (a : IPv4Interface) : inNetwork a a = true := by
  unfold inNetwork IPv4Interface.containsIp IPv4Interface.networkAddress
  simp

/-- When the non-overlap validator passes, no two (positionally distinct)
member addresses' networks overlap semantically. -/
lemma overlapFound_false_pairwise {addresses : List InterfaceIPv4Address}
    (hof : overlapFound addresses = false) :
    ∀ x ∈ addresses, ∀ y ∈ addresses.erase x, netsOverlap x.address y.address = false := by
  intro x hx y hy
  by_contra hno
  have hov : netsOverlap x.address y.address = true := by
    cases h : netsOverlap x.address y.address
    · exact absurd h hno
    · rfl
  have hnone : ¬ (overlapFound addresses = true) := by
    simp [hof]
  apply hnone
  unfold overlapFound
  rw [List.any_eq_true]
  rcases netsOverlap_imp_inNetwork _ _ hov with hin | hin
  · exact ⟨x, hx, by rw [List.any_eq_true]; exact ⟨y, hy, hin⟩⟩
  · by_cases hxy : x = y
    · subst hxy
      exact ⟨x, hx, by rw [List.any_eq_true]; exact ⟨x, hy, hin⟩⟩
    · have hyl : y ∈ addresses := List.mem_of_mem_erase hy
      have hxl : x ∈ addresses.erase y := (List.mem_erase_of_ne hxy).mpr hx
      exact ⟨y, hyl, by rw [List.any_eq_true]; exact ⟨x, hxl, hin⟩⟩

/-- A semantic overlap between a new address and some list member makes the
non-overlap validator fire on the extended list. -/
lemma overlapFound_append {addrs : List InterfaceIPv4Address}
    {a b : InterfaceIPv4Address} (hb : b ∈ addrs)
    (hov : netsOverlap a.address b.address = true) :
    overlapFound (addrs ++ [a]) = true := by
  unfold overlapFound
  rw [List.any_eq_true]
  have hal : a ∈ addrs ++ [a] := by simp
  by_cases hab : a = b
  · -- the new address duplicates a member: the duplicate copy survives the
    -- erase, and an address always lies in its own network
    subst hab
    refine ⟨a, hal, ?_⟩
    rw [List.any_eq_true]
    have hcount : 0 < List.count a ((addrs ++ [a]).erase a) := by
      rw [List.count_erase_self]
      have h1 : 0 < List.count a addrs := List.count_pos_iff.mpr hb
      have h2 : List.count a (addrs ++ [a]) = List.count a addrs + 1 := by simp
      omega
    exact ⟨a, List.count_pos_iff.mp hcount, inNetwork_self a.address⟩
  · rcases netsOverlap_imp_inNetwork _ _ hov with hin | hin
    · refine ⟨a, hal, ?_⟩
      rw [List.any_eq_true]
      have hbmem : b ∈ (addrs ++ [a]).erase a := by
        refine (List.mem_erase_of_ne ?_).mpr (by simp [hb])
        exact fun h => hab h.symm
      exact ⟨b, hbmem, hin⟩
    · refine ⟨b, by simp [hb], ?_⟩
      rw [List.any_eq_true]
      have hamem : a ∈ (addrs ++ [a]).erase b := by
        refine (List.mem_erase_of_ne hab).mpr hal
      exact ⟨a, hamem, hin⟩

/-! ## Claim C1 -/

/-- The spec's invariant on a valid `IPv4Container` state: no two
(positionally distinct) member addresses' networks overlap, and at most one
member is primary (`secondary` ∈ {False, None}). -/
def containerValid (c : InterfaceIPv4Container) : Prop :=
  ∀ addresses, c.addresses = some addresses →
    (∀ x ∈ addresses, ∀ y ∈ addresses.erase x,
        netsOverlap x.address y.address = false) ∧
    (addresses.filter isPrimary).length ≤ 1

/-- 10.0.0.1/24, primary. -/
def c1_first : InterfaceIPv4Address := { address := { ip := 167772161, prefixlen := 24 } }

/-- A container holding only 10.0.0.1/24. -/
def c1_container : InterfaceIPv4Container := { addresses := some [c1_first] }

/-- A routeport whose IPv4 container holds only 10.0.0.1/24. -/
def c1_rp : InterfaceRouteportModel := { ipv4 := some c1_container }

/-- 10.0.0.2/24: overlaps 10.0.0.1/24 and is a second primary. -/
def c1_addr : InterfaceIPv4Address := { address := { ip := 167772162, prefixlen := 24 } }

/-- C1 (counterexample): adding the conflicting address 10.0.0.2/24 to a
valid container holding 10.0.0.1/24 does fail, but the container's address
list is NOT left unchanged — the in-place append in `add_ipv4_address`
happens before the re-validating clone, so the conflicting address remains
in the list when the exception propagates. -/
theorem claim_C1_counterexample :
    (add_ipv4_address c1_rp c1_addr).2 = some PyError.assertionOverlap ∧
    (add_ipv4_address c1_rp c1_addr).1.ipv4 ≠ c1_rp.ipv4 := by
  decide

/-- C1 (amended): every container accepted by the validators satisfies
non-overlap and single-primary; and adding an overlapping or
second-primary address to a valid container always fails with an
`AddressConflict` error — but the conflicting address remains appended to
the container's address list (the mutation is not rolled back). -/
theorem claim_C1_amended :
    (∀ c : InterfaceIPv4Container, validateContainer c = none → containerValid c) ∧
    (∀ (rp : InterfaceRouteportModel) (c : InterfaceIPv4Container)
        (addrs : List InterfaceIPv4Address) (a : InterfaceIPv4Address),
      rp.ipv4 = some c → c.addresses = some addrs → validateContainer c = none →
      ((∃ b ∈ addrs, netsOverlap a.address b.address = true) ∨
        (isPrimary a = true ∧ ∃ b ∈ addrs, isPrimary b = true)) →
      ∃ e, add_ipv4_address rp a =
          ({ rp with ipv4 := some { c with addresses := some (addrs ++ [a]) } }, some e) ∧
        e.isAddressConflict = true) := by
  constructor
  · intro c hv addresses haddr
    unfold validateContainer at hv
    rw [haddr] at hv
    have hred : (if overlapFound addresses = true then some PyError.assertionOverlap
        else if multiplePrimaryFound addresses = true then some PyError.assertionMultiplePrimary
        else none) = none := hv
    constructor
    · cases hof : overlapFound addresses
      · exact overlapFound_false_pairwise hof
      · simp [hof] at hred
    · cases hof : overlapFound addresses
      · cases hmp : multiplePrimaryFound addresses
        · unfold multiplePrimaryFound at hmp
          by_cases hlen : addresses.length = 1
          · have := List.length_filter_le isPrimary addresses
            omega
          · rw [if_neg hlen, decide_eq_false_iff_not] at hmp
            omega
        · simp [hof, hmp] at hred
      · simp [hof] at hred
  · intro rp c addrs a hrp haddr _hv hconf
    have hstep : add_ipv4_address rp a =
        ({ rp with ipv4 := some { c with addresses := some (addrs ++ [a]) } },
          validateContainer { c with addresses := some (addrs ++ [a]) }) := by
      simp only [add_ipv4_address, hrp, haddr]
    have hfail : ∃ e, validateContainer { c with addresses := some (addrs ++ [a]) } = some e ∧
        e.isAddressConflict = true := by
      unfold validateContainer
      rcases hconf with ⟨b, hb, hov⟩ | ⟨hpa, b, hb, hpb⟩
      · have hof := overlapFound_append hb hov
        exact ⟨.assertionOverlap, by simp [hof], rfl⟩
      · cases hof : overlapFound (addrs ++ [a])
        · have hmp : multiplePrimaryFound (addrs ++ [a]) = true := by
            unfold multiplePrimaryFound
            have hne : addrs ≠ [] := List.ne_nil_of_mem hb
            have hpos : 0 < addrs.length := List.length_pos.mpr hne
            have hlen : (addrs ++ [a]).length ≠ 1 := by
              simp only [List.length_append, List.length_singleton]
              omega
            rw [if_neg hlen, decide_eq_true_eq, List.filter_append]
            have hbf : b ∈ addrs.filter isPrimary := List.mem_filter.mpr ⟨hb, hpb⟩
            have h1 : 0 < (addrs.filter isPrimary).length :=
              List.length_pos.mpr (List.ne_nil_of_mem hbf)
            simp only [List.filter_cons, List.filter_nil, hpa, if_pos,
              List.length_append]
            simp only [List.length_cons, List.length_nil]
            omega
          exact ⟨.assertionMultiplePrimary, by simp [hof, hmp], rfl⟩
        · exact ⟨.assertionOverlap, by simp [hof], rfl⟩
    obtain ⟨e, he, hc⟩ := hfail
    exact ⟨e, by rw [hstep, he], hc⟩

/-- C1 (witness): the amended theorem applied to the concrete container
holding 10.0.0.1/24 and the conflicting address 10.0.0.2/24. -/
theorem claim_C1_amended_witness :
    containerValid c1_container ∧
    ∃ e, add_ipv4_address c1_rp c1_addr =
        ({ c1_rp with ipv4 := some { c1_container with addresses := some ([c1_first] ++ [c1_addr]) } }, some e) ∧
      e.isAddressConflict = true :=
  ⟨claim_C1_amended.1 c1_container (by decide),
   claim_C1_amended.2 c1_rp c1_container [c1_first] c1_addr rfl rfl (by decide) (by decide)⟩

/-! ## Claim C3 -/

/-- C3: a successfully constructed `InterfaceOspfConfig` has `process_id`
and `area` both present or both absent, and construction with exactly one
of them set always fails (`validate_process_and_area`). -/
theorem claim_C3 (process_id area : Option Int) (network_type : Option String)
    (cost priority : Option Int) (authentication : Option InterfaceOspfAuthentication)
    (timers : Option InterfaceOspfTimers) (bfd : Option Bool) :
    (mkInterfaceOspfConfig process_id area network_type cost priority authentication
        timers bfd).isOk = (process_id.isSome == area.isSome) := by
  unfold mkInterfaceOspfConfig validate_process_and_area
  rcases process_id with _ | p <;> rcases area with _ | ar <;>
    simp [Except.isOk, Except.toBool]

/-! ## Claim C9 -/

/-- C9: constructing a `KeyOspf` always succeeds; an input longer than 8
characters is silently truncated to its first 8 characters by the
`truncate_value` pre-validator, and shorter inputs are stored unchanged. -/
theorem claim_C9 (value : List Char) :
    mkKeyOspf value = .ok { value := if 8 < value.length then value.take 8 else value } := by
  unfold mkKeyOspf
  by_cases h : 8 < value.length
  · simp [h, List.length_take]
  · simp [h]

/-! ## Inventory-map evaluation lemmas -/

lemma updIface_app_same {itf : IfMap} {k : IfKey} {f : InterfaceModel → InterfaceModel}
    {m : InterfaceModel} (h : itf k = some m) : updIface itf k f k = some (f m) := by
  simp [updIface, h, setIface]

lemma updIface_app_ne {itf : IfMap} {k : IfKey} {f : InterfaceModel → InterfaceModel}
    (q : IfKey) (h : q ≠ k) : updIface itf k f q = itf q := by
  unfold updIface
  cases itf k
  · rfl
  · simp [setIface, h]

/-- The IPv4 container reachable from an interface's routed port. -/
def portIpv4 (m : InterfaceModel) : Option InterfaceIPv4Container :=
  m.l3_port.bind fun p => p.ipv4

lemma map_portIpv4_updIface (itf : IfMap) (k : IfKey) (f : InterfaceModel → InterfaceModel)
    (hf : ∀ m, portIpv4 (f m) = portIpv4 m) (q : IfKey) :
    ((updIface itf k f) q).map portIpv4 = (itf q).map portIpv4 := by
  unfold updIface
  cases h : itf k
  · rfl
  · unfold setIface
    by_cases hq : q = k
    · subst hq; simp [h, hf]
    · simp [hq]

lemma portIpv4_ensureL3Port (m : InterfaceModel) : portIpv4 (ensureL3Port m) = portIpv4 m := by
  unfold ensureL3Port portIpv4
  cases h : m.l3_port <;> simp [h]

lemma portIpv4_upd_neighbor (itf : IfMap) (k : IfKey) (n : Option InterfaceNeighbor)
    (q : IfKey) :
    ((updIface itf k fun m => { m with neighbor := n }) q).map portIpv4 =
      (itf q).map portIpv4 :=
  map_portIpv4_updIface itf k (fun m => { m with neighbor := n }) (fun _ => rfl) q

lemma portIpv4_upd_ensureL3Port (itf : IfMap) (k : IfKey) (q : IfKey) :
    ((updIface itf k ensureL3Port) q).map portIpv4 = (itf q).map portIpv4 :=
  map_portIpv4_updIface itf k _ portIpv4_ensureL3Port q

lemma portIpv4_upd_vrf (itf : IfMap) (k : IfKey) (v : Option String) (q : IfKey) :
    ((updIface itf k fun m =>
        { m with l3_port := m.l3_port.map fun p => { p with vrf := v } }) q).map portIpv4 =
      (itf q).map portIpv4 :=
  map_portIpv4_updIface itf k
    (fun m => { m with l3_port := m.l3_port.map fun p => { p with vrf := v } })
    (fun m => by unfold portIpv4; cases h : m.l3_port <;> simp [h]) q

/-- An interface's neighbor relation. -/
def neighborOf (m : InterfaceModel) : Option InterfaceNeighbor := m.neighbor

/-- An interface's discovery-protocol config. -/
def discoveryOf (m : InterfaceModel) : Option InterfaceDiscoveryProtocols :=
  m.discovery_protocols

lemma map_neighborOf_updIface (itf : IfMap) (k : IfKey) (f : InterfaceModel → InterfaceModel)
    (hf : ∀ m, neighborOf (f m) = neighborOf m) (q : IfKey) :
    ((updIface itf k f) q).map neighborOf = (itf q).map neighborOf := by
  unfold updIface
  cases h : itf k
  · rfl
  · unfold setIface
    by_cases hq : q = k
    · subst hq; simp [h, hf]
    · simp [hq]

lemma map_discoveryOf_updIface (itf : IfMap) (k : IfKey) (f : InterfaceModel → InterfaceModel)
    (hf : ∀ m, discoveryOf (f m) = discoveryOf m) (q : IfKey) :
    ((updIface itf k f) q).map discoveryOf = (itf q).map discoveryOf := by
  unfold updIface
  cases h : itf k
  · rfl
  · unfold setIface
    by_cases hq : q = k
    · subst hq; simp [h, hf]
    · simp [hq]

lemma neighborOf_setDiscoveryIfUnset (c : InterfaceCdpConfig) (m : InterfaceModel) :
    neighborOf (setDiscoveryIfUnset c m) = neighborOf m := by
  unfold setDiscoveryIfUnset neighborOf
  cases m.discovery_protocols <;> rfl

lemma discoveryOf_lag (g : Nat) (mo : String) (m : InterfaceModel) :
    discoveryOf { m with lag_member := some { group := g, mode := mo } } = discoveryOf m := rfl

lemma discoveryOf_nbr (n : Option InterfaceNeighbor) (m : InterfaceModel) :
    discoveryOf { m with neighbor := n } = discoveryOf m := rfl

/-- The CDP section never touches neighbor relations. -/
lemma physicalCdpStage_neighborOf (itf : IfMap) (aKey zKey : IfKey)
    (row : PhysicalLinkRow) (q : IfKey) :
    ((physicalCdpStage itf aKey zKey row) q).map neighborOf = (itf q).map neighborOf := by
  unfold physicalCdpStage
  rcases hc : row.cdp_enabled with _ | hb
  · rfl
  · rcases hb with _ | b
    · rfl
    · simp only []
      rw [map_neighborOf_updIface _ _ _ (neighborOf_setDiscoveryIfUnset _),
        map_neighborOf_updIface _ _ _ (neighborOf_setDiscoveryIfUnset _)]

/-- The LAG section never touches discovery-protocol configs. -/
lemma physicalLagStage_discoveryOf (itf : IfMap) (ahn zhn : String)
    (aKey zKey : IfKey) (dlm : String) (row : PhysicalLinkRow) (q : IfKey) :
    (((physicalLagStage itf ahn zhn aKey zKey dlm row).1) q).map discoveryOf =
      (itf q).map discoveryOf := by
  unfold physicalLagStage
  rcases hga : row.a_lag_group with _ | ga
  · rcases hgz : row.z_lag_group with _ | gz
    · simp
    · cases hL : itf (zhn, pcName gz)
      · simp [hL]
      · simp only [hL]
        rw [map_discoveryOf_updIface _ _ _ (fun m => discoveryOf_lag _ _ m)]
  · cases hL1 : itf (ahn, pcName ga)
    · simp [hL1]
    · simp only [hL1]
      rcases hgz : row.z_lag_group with _ | gz
      · simp only []
        rw [map_discoveryOf_updIface _ _ _ (fun m => discoveryOf_lag _ _ m)]
      · set itf2 := updIface itf aKey fun m =>
          { m with lag_member := some { group := ga, mode :=
              match row.a_lag_mode with | some m => m | none => dlm } } with hitf2
        cases hL2 : itf2 (zhn, pcName gz)
        · simp only [hL2]
          rw [hitf2, map_discoveryOf_updIface _ _ _ (fun m => discoveryOf_lag _ _ m)]
        · simp only [hL2]
          rw [map_discoveryOf_updIface _ _ _ (fun m => discoveryOf_nbr _ m),
            map_discoveryOf_updIface _ _ _ (fun m => discoveryOf_nbr _ m),
            map_discoveryOf_updIface _ _ _ (fun m => discoveryOf_lag _ _ m),
            hitf2,
            map_discoveryOf_updIface _ _ _ (fun m => discoveryOf_lag _ _ m)]

lemma neighborOf_lag (g : Nat) (mo : String) (m : InterfaceModel) :
    neighborOf { m with lag_member := some { group := g, mode := mo } } = neighborOf m := rfl

/-- The LAG section leaves the neighbor relation of any key other than the
two Port-channel keys untouched. -/
lemma physicalLagStage_neighborOf (itf : IfMap) (ahn zhn : String)
    (aKey zKey : IfKey) (dlm : String) (row : PhysicalLinkRow) (q : IfKey)
    (hq : ∀ ga gz, row.a_lag_group = some ga → row.z_lag_group = some gz →
      q ≠ (ahn, pcName ga) ∧ q ≠ (zhn, pcName gz)) :
    (((physicalLagStage itf ahn zhn aKey zKey dlm row).1) q).map neighborOf =
      (itf q).map neighborOf := by
  unfold physicalLagStage
  rcases hga : row.a_lag_group with _ | ga
  · rcases hgz : row.z_lag_group with _ | gz
    · simp
    · cases hL : itf (zhn, pcName gz)
      · simp [hL]
      · simp only [hL]
        rw [map_neighborOf_updIface _ _ _ (fun m => neighborOf_lag _ _ m)]
  · cases hL1 : itf (ahn, pcName ga)
    · simp [hL1]
    · simp only [hL1]
      rcases hgz : row.z_lag_group with _ | gz
      · simp only []
        rw [map_neighborOf_updIface _ _ _ (fun m => neighborOf_lag _ _ m)]
      · set itf2 := updIface itf aKey fun m =>
          { m with lag_member := some { group := ga, mode :=
              match row.a_lag_mode with | some m => m | none => dlm } } with hitf2
        cases hL2 : itf2 (zhn, pcName gz)
        · simp only [hL2]
          rw [hitf2, map_neighborOf_updIface _ _ _ (fun m => neighborOf_lag _ _ m)]
        · simp only [hL2]
          obtain ⟨hqa, hqz⟩ := hq ga gz hga hgz
          rw [updIface_app_ne _ hqz, updIface_app_ne _ hqa,
            map_neighborOf_updIface _ _ _ (fun m => neighborOf_lag _ _ m),
            hitf2,
            map_neighborOf_updIface _ _ _ (fun m => neighborOf_lag _ _ m)]

lemma neighborOf_addIpv4OnIface (itf : IfMap) (k : IfKey) (a : InterfaceIPv4Address)
    (q : IfKey) :
    (((addIpv4OnIface itf k a).1) q).map neighborOf = (itf q).map neighborOf := by
  unfold addIpv4OnIface
  cases h : itf k
  · rfl
  · rename_i m
    cases hl3 : m.l3_port
    · simp [h, hl3]
    · simp only [h, hl3]
      unfold setIface
      by_cases hq : q = k
      · subst hq; simp [h, neighborOf]
      · simp [hq]

/-- The network-derivation branch never touches neighbor relations. -/
lemma l3NetworkDerive_neighborOf (itf : IfMap) (aK zK : IfKey) (row : L3LinkRow)
    (q : IfKey) :
    (((l3NetworkDerive itf aK zK row).1) q).map neighborOf = (itf q).map neighborOf := by
  unfold l3NetworkDerive
  cases hnet : row.ipv4_network with
  | none => simp
  | some net =>
    simp only []
    cases hh : net.hosts.head? with
    | none => simp
    | some firstIp =>
      cases hl : net.hosts.getLast? with
      | none => simp
      | some lastIp =>
        simp only []
        cases hres : addIpv4OnIface itf aK
            { address := { ip := firstIp, prefixlen := net.prefixlen } } with
        | mk itf2 e =>
          have h1 := neighborOf_addIpv4OnIface itf aK
            { address := { ip := firstIp, prefixlen := net.prefixlen } } q
          rw [hres] at h1
          cases e with
          | some e0 => simpa using h1
          | none =>
            simp only []
            have h2 := neighborOf_addIpv4OnIface itf2 zK
              { address := { ip := lastIp, prefixlen := net.prefixlen } } q
            rw [h2]
            simpa using h1

/-- The address-assignment section never touches neighbor relations. -/
lemma l3AddressStage_neighborOf (itf : IfMap) (aK zK : IfKey) (row : L3LinkRow)
    (q : IfKey) :
    (((l3AddressStage itf aK zK row).1) q).map neighborOf = (itf q).map neighborOf := by
  unfold l3AddressStage
  cases haa : row.a_ipv4_address with
  | none => exact l3NetworkDerive_neighborOf itf aK zK row q
  | some aa =>
    cases hza : row.z_ipv4_address with
    | none => exact l3NetworkDerive_neighborOf itf aK zK row q
    | some za =>
      simp only []
      cases hres : addIpv4OnIface itf aK { address := aa } with
      | mk itf2 e =>
        have h1 := neighborOf_addIpv4OnIface itf aK { address := aa } q
        rw [hres] at h1
        cases e with
        | some e0 => simpa using h1
        | none =>
          simp only []
          have h2 := neighborOf_addIpv4OnIface itf2 zK { address := za } q
          rw [h2]
          simpa using h1

lemma neighborOf_upd_ospf (itf : IfMap) (k : IfKey) (x : Option Nat) (q : IfKey) :
    ((updIface itf k fun m =>
        { m with l3_port := m.l3_port.map fun p => { p with ospf := x } }) q).map neighborOf =
      (itf q).map neighborOf :=
  map_neighborOf_updIface itf k
    (fun m => { m with l3_port := m.l3_port.map fun p => { p with ospf := x } })
    (fun _ => rfl) q

lemma neighborOf_upd_bfd (itf : IfMap) (k : IfKey) (x : Option InterfaceBfdConfig)
    (q : IfKey) :
    ((updIface itf k fun m =>
        { m with l3_port := m.l3_port.map fun p => { p with bfd := x } }) q).map neighborOf =
      (itf q).map neighborOf :=
  map_neighborOf_updIface itf k
    (fun m => { m with l3_port := m.l3_port.map fun p => { p with bfd := x } })
    (fun _ => rfl) q

/-- The OSPF-template section never touches neighbor relations. -/
lemma l3OspfStage_neighborOf (st : LoaderState) (itf : IfMap) (aK zK : IfKey)
    (row : L3LinkRow) (q : IfKey) :
    ((((l3OspfStage st itf aK zK row).1).interfaces) q).map neighborOf =
      (itf q).map neighborOf := by
  unfold l3OspfStage
  split
  · rfl
  · split
    · rfl
    · split
      · rfl
      · split
        · rfl
        · simp only []
          rw [neighborOf_upd_ospf, neighborOf_upd_ospf]

/-- The BFD-template section never touches neighbor relations. -/
lemma l3BfdStage_neighborOf (st2 : LoaderState) (aK zK : IfKey) (row : L3LinkRow)
    (q : IfKey) :
    ((((l3BfdStage st2 aK zK row).1).interfaces) q).map neighborOf =
      (st2.interfaces q).map neighborOf := by
  unfold l3BfdStage
  split
  · rfl
  · split
    · rfl
    · simp only []
      rw [neighborOf_upd_bfd, neighborOf_upd_bfd]

lemma neighborOf_upd_ensureL3Port (itf : IfMap) (k : IfKey) (q : IfKey) :
    ((updIface itf k ensureL3Port) q).map neighborOf = (itf q).map neighborOf :=
  map_neighborOf_updIface itf k ensureL3Port
    (fun m => by unfold ensureL3Port neighborOf; cases m.l3_port <;> rfl) q

lemma neighborOf_upd_ensureIpv4 (itf : IfMap) (k : IfKey) (q : IfKey) :
    ((updIface itf k ensureIpv4Container) q).map neighborOf = (itf q).map neighborOf :=
  map_neighborOf_updIface itf k ensureIpv4Container
    (fun m => by
      unfold ensureIpv4Container neighborOf
      cases h : m.l3_port with
      | none => rfl
      | some p => cases h2 : p.ipv4 <;> simp [h2]) q

lemma neighborOf_upd_vrf (itf : IfMap) (k : IfKey) (v : Option String) (q : IfKey) :
    ((updIface itf k fun m =>
        { m with l3_port := m.l3_port.map fun p => { p with vrf := v } }) q).map neighborOf =
      (itf q).map neighborOf :=
  map_neighborOf_updIface itf k
    (fun m => { m with l3_port := m.l3_port.map fun p => { p with vrf := v } })
    (fun _ => rfl) q

/-- Neither the address assignment nor the template sections touch
neighbor relations. -/
lemma l3AssignAndTemplates_neighborOf (st : LoaderState) (itf : IfMap)
    (aK zK : IfKey) (row : L3LinkRow) (q : IfKey) :
    ((((l3AssignAndTemplates st itf aK zK row).1).interfaces) q).map neighborOf =
      (itf q).map neighborOf := by
  unfold l3AssignAndTemplates
  cases hAS : l3AddressStage itf aK zK row with
  | mk itf2 e =>
    have h1 := l3AddressStage_neighborOf itf aK zK row q
    rw [hAS] at h1
    simp only [] at h1
    cases e with
    | some e0 => simpa using h1
    | none =>
      simp only []
      unfold l3TemplateStages
      cases hOS : l3OspfStage st itf2 aK zK row with
      | mk st2 e2 =>
        have h2 := l3OspfStage_neighborOf st itf2 aK zK row q
        rw [hOS] at h2
        simp only [] at h2
        cases e2 with
        | some e3 => simp only []; rw [h2, h1]
        | none =>
          simp only []
          rw [l3BfdStage_neighborOf, h2, h1]

/-! ## Claim C10 -/

/-- C10: an L3-link row that supplies an explicit IPv4 address for exactly
one end (and no network CIDR) is processed without error, and neither end
interface gets an IPv4 container or address: the lone explicit address is
silently ignored (line 180's `all(...)` is false and line 188's network
branch is skipped). -/
theorem claim_C10 (st : LoaderState) (row : L3LinkRow)
    (ah zh : Host) (ai zi : InterfaceModel)
    (hA : st.hosts row.a_host = some ah) (hZ : st.hosts row.z_host = some zh)
    (hIA : st.interfaces (row.a_host, row.a_interface) = some ai)
    (hIZ : st.interfaces (row.z_host, row.z_interface) = some zi)
    (hone : (row.a_ipv4_address.isSome ∧ row.z_ipv4_address = none) ∨
            (row.a_ipv4_address = none ∧ row.z_ipv4_address.isSome))
    (hnet : row.ipv4_network = none) (hospf : row.ospf_template = none)
    (hbfd : row.bfd_template = none) :
    (processL3Row st row).2 = none ∧
    ∀ q, ((processL3Row st row).1.interfaces q).map portIpv4 =
      (st.interfaces q).map portIpv4 := by
  rcases hone with ⟨hx, hz⟩ | ⟨hx, hz⟩
  · obtain ⟨x, hxv⟩ := Option.isSome_iff_exists.mp hx
    constructor
    · simp [processL3Row, l3AssignAndTemplates, l3TemplateStages, l3AddressStage, l3NetworkDerive, l3OspfStage, l3BfdStage, hA, hZ, hIA, hIZ, hxv, hz, hnet, hospf, hbfd]
    · intro q
      simp only [processL3Row, l3AssignAndTemplates, l3TemplateStages, l3AddressStage, l3NetworkDerive, l3OspfStage, l3BfdStage, hA, hZ, hIA, hIZ, hxv, hz, hnet, hospf, hbfd,
        Option.isSome_some, Option.isSome_none, Bool.and_false, Bool.false_or,
        Bool.or_self, if_false, Bool.false_eq_true]
      simp only [ite_apply, apply_ite (Option.map portIpv4),
        portIpv4_upd_neighbor, portIpv4_upd_ensureL3Port, portIpv4_upd_vrf,
        ite_self]
  · obtain ⟨z, hzv⟩ := Option.isSome_iff_exists.mp hz
    constructor
    · simp [processL3Row, l3AssignAndTemplates, l3TemplateStages, l3AddressStage, l3NetworkDerive, l3OspfStage, l3BfdStage, hA, hZ, hIA, hIZ, hx, hzv, hnet, hospf, hbfd]
    · intro q
      simp only [processL3Row, l3AssignAndTemplates, l3TemplateStages, l3AddressStage, l3NetworkDerive, l3OspfStage, l3BfdStage, hA, hZ, hIA, hIZ, hx, hzv, hnet, hospf, hbfd,
        Option.isSome_some, Option.isSome_none, Bool.false_and, Bool.false_or,
        Bool.or_self, if_false, Bool.false_eq_true]
      simp only [ite_apply, apply_ite (Option.map portIpv4),
        portIpv4_upd_neighbor, portIpv4_upd_ensureL3Port, portIpv4_upd_vrf,
        ite_self]

/-- Hosts R1 and R2 with one interface each, used as concrete inventory by
several witnesses. -/
def demoHosts : HostMap := fun h =>
  if h = "R1" then some { name := "R1" }
  else if h = "R2" then some { name := "R2" }
  else none

/-- Interfaces R1/Gi0-0 and R2/Gi0-1, both fresh. -/
def demoItf : IfMap := fun k =>
  if k = ("R1", "Gi0/0") then some { name := "Gi0/0" }
  else if k = ("R2", "Gi0/1") then some { name := "Gi0/1" }
  else none

/-- Fresh loader state over the demo inventory. -/
def demoSt : LoaderState := { hosts := demoHosts, interfaces := demoItf }

/-- L3 row R1/Gi0-0 — R2/Gi0-1 with only an a-side address. -/
def c10_row : L3LinkRow :=
  { a_host := "R1", a_interface := "Gi0/0", z_host := "R2", z_interface := "Gi0/1",
    a_ipv4_address := some { ip := 167772161, prefixlen := 30 } }

/-- C10 (witness): the theorem applied to a concrete row carrying only an
a-side address. -/
theorem claim_C10_witness :
    (processL3Row demoSt c10_row).2 = none ∧
    ∀ q, ((processL3Row demoSt c10_row).1.interfaces q).map portIpv4 =
      (demoSt.interfaces q).map portIpv4 :=
  claim_C10 demoSt c10_row { name := "R1" } { name := "R2" }
    { name := "Gi0/0" } { name := "Gi0/1" }
    (by decide) (by decide) (by decide) (by decide)
    (Or.inl ⟨by decide, rfl⟩) rfl rfl rfl

/-! ## Claim C4 -/

/-- C4 (amended): for an L3 row with no explicit address pair and a network
CIDR, the loader assigns the first usable address to the a side and the
last usable address to the z side, both with the network's prefix length —
and this succeeds whenever the network yields at least one usable address;
in particular a /32 network (fewer than 2 usable addresses) is NOT rejected:
both sides then receive the same single usable address and no error is
raised (the code has no `InvalidAddressing` check). -/
theorem claim_C4_amended (st : LoaderState) (row : L3LinkRow)
    (ah zh : Host) (ai zi : InterfaceModel) (net : IPv4Network) (firstIp lastIp : Nat)
    (hA : st.hosts row.a_host = some ah) (hZ : st.hosts row.z_host = some zh)
    (hIA : st.interfaces (row.a_host, row.a_interface) = some ai)
    (hIZ : st.interfaces (row.z_host, row.z_interface) = some zi)
    (hpa : ai.l3_port = none) (hpz : zi.l3_port = none)
    (hne : ((row.a_host, row.a_interface) : IfKey) ≠ (row.z_host, row.z_interface))
    (hab : row.a_ipv4_address = none ∨ row.z_ipv4_address = none)
    (hnet : row.ipv4_network = some net)
    (hhead : net.hosts.head? = some firstIp) (hlast : net.hosts.getLast? = some lastIp)
    (hospf : row.ospf_template = none) (hbfd : row.bfd_template = none) :
    (processL3Row st row).2 = none ∧
    ((processL3Row st row).1.interfaces (row.a_host, row.a_interface)).map portIpv4 =
      some (some { addresses := some [{ address := { ip := firstIp, prefixlen := net.prefixlen } }] }) ∧
    ((processL3Row st row).1.interfaces (row.z_host, row.z_interface)).map portIpv4 =
      some (some { addresses := some [{ address := { ip := lastIp, prefixlen := net.prefixlen } }] }) := by
  have hne2 : ((row.z_host, row.z_interface) : IfKey) ≠ (row.a_host, row.a_interface) :=
    Ne.symm hne
  rcases hab with ha | hz
  · by_cases hva : row.a_vrf ∈ GLOBAL_VRFS <;> by_cases hvz : row.z_vrf ∈ GLOBAL_VRFS <;>
      refine ⟨?_, ?_, ?_⟩ <;>
      simp [processL3Row, l3AssignAndTemplates, l3TemplateStages, l3AddressStage, l3NetworkDerive, l3OspfStage, l3BfdStage, addIpv4OnIface, add_ipv4_address, validateContainer,
        overlapFound, multiplePrimaryFound, updIface, setIface, ensureL3Port,
        ensureIpv4Container, portIpv4, hA, hZ, hIA, hIZ, hpa, hpz, ha, hnet,
        hhead, hlast, hospf, hbfd, hne, hne2, hva, hvz, List.erase_cons_head]
  · cases haa : row.a_ipv4_address <;>
      by_cases hva : row.a_vrf ∈ GLOBAL_VRFS <;> by_cases hvz : row.z_vrf ∈ GLOBAL_VRFS <;>
      refine ⟨?_, ?_, ?_⟩ <;>
      simp [processL3Row, l3AssignAndTemplates, l3TemplateStages, l3AddressStage, l3NetworkDerive, l3OspfStage, l3BfdStage, addIpv4OnIface, add_ipv4_address, validateContainer,
        overlapFound, multiplePrimaryFound, updIface, setIface, ensureL3Port,
        ensureIpv4Container, portIpv4, hA, hZ, hIA, hIZ, hpa, hpz, haa, hz, hnet,
        hhead, hlast, hospf, hbfd, hne, hne2, hva, hvz, List.erase_cons_head]

/-- 10.0.0.1/32: a network with a single usable address. -/
def c4_net32 : IPv4Network := { network_address := 167772161, prefixlen := 32 }

/-- L3 row R1/Gi0-0 — R2/Gi0-1 deriving addresses from 10.0.0.1/32. -/
def c4_row32 : L3LinkRow :=
  { a_host := "R1", a_interface := "Gi0/0", z_host := "R2", z_interface := "Gi0/1",
    ipv4_network := some c4_net32 }

/-- C4 (counterexample): a /32 network yields fewer than 2 usable
addresses, yet the loader does NOT fail (no `InvalidAddressing` exists in
the code): it assigns the one usable address to BOTH sides. -/
theorem claim_C4_counterexample :
    c4_net32.hosts.length < 2 ∧
    (processL3Row demoSt c4_row32).2 = none ∧
    (processL3Row demoSt c4_row32).2 ≠ some PyError.invalidAddressing ∧
    ((processL3Row demoSt c4_row32).1.interfaces ("R1", "Gi0/0")).map portIpv4 =
      some (some { addresses := some [{ address := { ip := 167772161, prefixlen := 32 } }] }) ∧
    ((processL3Row demoSt c4_row32).1.interfaces ("R2", "Gi0/1")).map portIpv4 =
      some (some { addresses := some [{ address := { ip := 167772161, prefixlen := 32 } }] }) := by
  decide

/-- 10.0.0.0/30. -/
def c4_net30 : IPv4Network := { network_address := 167772160, prefixlen := 30 }

/-- L3 row R1/Gi0-0 — R2/Gi0-1 deriving addresses from 10.0.0.0/30. -/
def c4_row30 : L3LinkRow :=
  { a_host := "R1", a_interface := "Gi0/0", z_host := "R2", z_interface := "Gi0/1",
    ipv4_network := some c4_net30 }

/-- C4 (witness): the amended theorem applied to 10.0.0.0/30 — the a side
gets 10.0.0.1/30 and the z side 10.0.0.2/30, as in the spec's example. -/
theorem claim_C4_amended_witness :
    (processL3Row demoSt c4_row30).2 = none ∧
    ((processL3Row demoSt c4_row30).1.interfaces ("R1", "Gi0/0")).map portIpv4 =
      some (some { addresses := some [{ address := { ip := 167772161, prefixlen := c4_net30.prefixlen } }] }) ∧
    ((processL3Row demoSt c4_row30).1.interfaces ("R2", "Gi0/1")).map portIpv4 =
      some (some { addresses := some [{ address := { ip := 167772162, prefixlen := c4_net30.prefixlen } }] }) :=
  claim_C4_amended demoSt c4_row30 { name := "R1" } { name := "R2" }
    { name := "Gi0/0" } { name := "Gi0/1" } c4_net30 167772161 167772162
    (by decide) (by decide) (by decide) (by decide) rfl rfl (by decide)
    (Or.inl rfl) rfl (by decide) (by decide) rfl rfl

/-! ## Claim C5 -/

/-- The OSPF heap address referenced by an interface's routed port. -/
def ospfOf (m : InterfaceModel) : Option Nat :=
  m.l3_port.bind fun p => p.ospf

/-- C5: OSPF template application is copy-isolated.  Applying a registered
template to an L3 row's two (distinct) end interfaces allocates two fresh
heap cells, both distinct from each other and from the stored prototype's
cell; each holds a copy of the prototype's value, and overwriting either
copy changes neither the other copy nor the prototype. -/
theorem claim_C5 (st : LoaderState) (row : L3LinkRow)
    (ah zh : Host) (ai zi : InterfaceModel) (tname : String)
    (reg : List (String × Nat)) (t : Nat) (proto : InterfaceOspfConfig)
    (hA : st.hosts row.a_host = some ah) (hZ : st.hosts row.z_host = some zh)
    (hIA : st.interfaces (row.a_host, row.a_interface) = some ai)
    (hIZ : st.interfaces (row.z_host, row.z_interface) = some zi)
    (hpa : ai.l3_port = none) (hpz : zi.l3_port = none)
    (hne : ((row.a_host, row.a_interface) : IfKey) ≠ (row.z_host, row.z_interface))
    (ha : row.a_ipv4_address = none) (hnet : row.ipv4_network = none)
    (hospf : row.ospf_template = some tname)
    (hreg : st.templates_ospf = some reg) (hlook : regLookup reg tname = some t)
    (hproto : heapAt st.heap t = some proto)
    (hbfd : row.bfd_template = none) :
    (processL3Row st row).2 = none ∧
    ((processL3Row st row).1.interfaces (row.a_host, row.a_interface)).map ospfOf =
      some (some st.heap.length) ∧
    ((processL3Row st row).1.interfaces (row.z_host, row.z_interface)).map ospfOf =
      some (some (st.heap.length + 1)) ∧
    (processL3Row st row).1.heap = st.heap ++ [proto, proto] ∧
    t ≠ st.heap.length ∧ t ≠ st.heap.length + 1 ∧
    st.heap.length ≠ st.heap.length + 1 ∧
    heapAt (processL3Row st row).1.heap st.heap.length = some proto ∧
    heapAt (processL3Row st row).1.heap (st.heap.length + 1) = some proto ∧
    heapAt (processL3Row st row).1.heap t = some proto ∧
    (∀ cfg : InterfaceOspfConfig,
      heapAt (heapWrite (processL3Row st row).1.heap st.heap.length cfg)
          (st.heap.length + 1) = some proto ∧
      heapAt (heapWrite (processL3Row st row).1.heap st.heap.length cfg) t = some proto ∧
      heapAt (heapWrite (processL3Row st row).1.heap (st.heap.length + 1) cfg)
          st.heap.length = some proto ∧
      heapAt (heapWrite (processL3Row st row).1.heap (st.heap.length + 1) cfg) t
        = some proto) := by
  have hne2 : ((row.z_host, row.z_interface) : IfKey) ≠ (row.a_host, row.a_interface) :=
    Ne.symm hne
  have htlt : t < st.heap.length := by
    have := (List.getElem?_eq_some.mp hproto).1
    simpa [heapAt] using this
  have hheap : (processL3Row st row).1.heap = st.heap ++ [proto, proto] := by
    by_cases hva : row.a_vrf ∈ GLOBAL_VRFS <;> by_cases hvz : row.z_vrf ∈ GLOBAL_VRFS <;>
      simp [processL3Row, l3AssignAndTemplates, l3TemplateStages, l3AddressStage, l3NetworkDerive, l3OspfStage, l3BfdStage, updIface, setIface, ensureL3Port, ensureIpv4Container,
        hA, hZ, hIA, hIZ, hpa, hpz, ha, hnet, hospf, hreg, hlook, hproto, hbfd,
        hne, hne2, hva, hvz]
  have hsame : heapAt (st.heap ++ [proto, proto]) st.heap.length = some proto := by
    unfold heapAt
    rw [List.getElem?_append_right (le_refl _)]
    simp
  have hsucc : heapAt (st.heap ++ [proto, proto]) (st.heap.length + 1) = some proto := by
    unfold heapAt
    rw [List.getElem?_append_right (by omega)]
    simp
  have ht : heapAt (st.heap ++ [proto, proto]) t = some proto := by
    unfold heapAt
    rw [List.getElem?_append]
    rw [if_pos htlt]
    simpa [heapAt] using hproto
  refine ⟨?_, ?_, ?_, hheap, by omega, by omega, by omega, ?_, ?_, ?_, ?_⟩
  · by_cases hva : row.a_vrf ∈ GLOBAL_VRFS <;> by_cases hvz : row.z_vrf ∈ GLOBAL_VRFS <;>
      simp [processL3Row, l3AssignAndTemplates, l3TemplateStages, l3AddressStage, l3NetworkDerive, l3OspfStage, l3BfdStage, updIface, setIface, ensureL3Port, ensureIpv4Container,
        hA, hZ, hIA, hIZ, hpa, hpz, ha, hnet, hospf, hreg, hlook, hproto, hbfd,
        hne, hne2, hva, hvz]
  · by_cases hva : row.a_vrf ∈ GLOBAL_VRFS <;> by_cases hvz : row.z_vrf ∈ GLOBAL_VRFS <;>
      simp [processL3Row, l3AssignAndTemplates, l3TemplateStages, l3AddressStage, l3NetworkDerive, l3OspfStage, l3BfdStage, updIface, setIface, ensureL3Port, ensureIpv4Container,
        ospfOf, hA, hZ, hIA, hIZ, hpa, hpz, ha, hnet, hospf, hreg, hlook, hproto,
        hbfd, hne, hne2, hva, hvz]
  · by_cases hva : row.a_vrf ∈ GLOBAL_VRFS <;> by_cases hvz : row.z_vrf ∈ GLOBAL_VRFS <;>
      simp [processL3Row, l3AssignAndTemplates, l3TemplateStages, l3AddressStage, l3NetworkDerive, l3OspfStage, l3BfdStage, updIface, setIface, ensureL3Port, ensureIpv4Container,
        ospfOf, hA, hZ, hIA, hIZ, hpa, hpz, ha, hnet, hospf, hreg, hlook, hproto,
        hbfd, hne, hne2, hva, hvz]
  · rw [hheap]; exact hsame
  · rw [hheap]; exact hsucc
  · rw [hheap]; exact ht
  · intro cfg
    rw [hheap]
    refine ⟨?_, ?_, ?_, ?_⟩ <;> unfold heapWrite heapAt <;>
      rw [List.getElem?_set_ne (by omega)]
    · exact hsucc
    · exact ht
    · exact hsame
    · exact ht

/-- Heap holding one stored OSPF prototype (process 1, area 0). -/
def c5_heap : OspfHeap := [{ process_id := some 1, area := some 0 }]

/-- Loader state whose OSPF registry maps "CORE" to the stored prototype. -/
def c5_st : LoaderState :=
  { hosts := demoHosts, interfaces := demoItf, heap := c5_heap,
    templates_ospf := some [("CORE", 0)] }

/-- L3 row R1/Gi0-0 — R2/Gi0-1 applying OSPF template "CORE". -/
def c5_row : L3LinkRow :=
  { a_host := "R1", a_interface := "Gi0/0", z_host := "R2", z_interface := "Gi0/1",
    ospf_template := some "CORE" }

/-- C5 (witness): the theorem applied to a concrete one-template registry. -/
theorem claim_C5_witness :
    (processL3Row c5_st c5_row).2 = none ∧
    ((processL3Row c5_st c5_row).1.interfaces ("R1", "Gi0/0")).map ospfOf =
      some (some c5_st.heap.length) ∧
    ((processL3Row c5_st c5_row).1.interfaces ("R2", "Gi0/1")).map ospfOf =
      some (some (c5_st.heap.length + 1)) ∧
    (processL3Row c5_st c5_row).1.heap =
      c5_st.heap ++ [{ process_id := some 1, area := some 0 },
        { process_id := some 1, area := some 0 }] ∧
    (0 : Nat) ≠ c5_st.heap.length ∧ (0 : Nat) ≠ c5_st.heap.length + 1 ∧
    c5_st.heap.length ≠ c5_st.heap.length + 1 ∧
    heapAt (processL3Row c5_st c5_row).1.heap c5_st.heap.length =
      some { process_id := some 1, area := some 0 } ∧
    heapAt (processL3Row c5_st c5_row).1.heap (c5_st.heap.length + 1) =
      some { process_id := some 1, area := some 0 } ∧
    heapAt (processL3Row c5_st c5_row).1.heap 0 =
      some { process_id := some 1, area := some 0 } ∧
    (∀ cfg : InterfaceOspfConfig,
      heapAt (heapWrite (processL3Row c5_st c5_row).1.heap c5_st.heap.length cfg)
          (c5_st.heap.length + 1) = some { process_id := some 1, area := some 0 } ∧
      heapAt (heapWrite (processL3Row c5_st c5_row).1.heap c5_st.heap.length cfg) 0 =
        some { process_id := some 1, area := some 0 } ∧
      heapAt (heapWrite (processL3Row c5_st c5_row).1.heap (c5_st.heap.length + 1) cfg)
          c5_st.heap.length = some { process_id := some 1, area := some 0 } ∧
      heapAt (heapWrite (processL3Row c5_st c5_row).1.heap (c5_st.heap.length + 1) cfg) 0
        = some { process_id := some 1, area := some 0 }) :=
  claim_C5 c5_st c5_row { name := "R1" } { name := "R2" }
    { name := "Gi0/0" } { name := "Gi0/1" } "CORE" [("CORE", 0)] 0
    { process_id := some 1, area := some 0 }
    (by decide) (by decide) (by decide) (by decide) rfl rfl (by decide)
    rfl rfl rfl rfl (by decide) (by decide) rfl

/-! ## Claim C6 -/

/-- C6 (amended): an L3 row referencing an OSPF template name that is not
in the registry does fail, but with an `AttributeError` — `dict.get`
returns `None` and the code calls `.clone()` on it — not with a dedicated
`UnknownTemplate` lookup error. -/
theorem claim_C6_amended (st : LoaderState) (row : L3LinkRow)
    (ah zh : Host) (ai zi : InterfaceModel) (tname : String)
    (reg : List (String × Nat))
    (hA : st.hosts row.a_host = some ah) (hZ : st.hosts row.z_host = some zh)
    (hIA : st.interfaces (row.a_host, row.a_interface) = some ai)
    (hIZ : st.interfaces (row.z_host, row.z_interface) = some zi)
    (ha : row.a_ipv4_address = none) (hnet : row.ipv4_network = none)
    (hreg : st.templates_ospf = some reg)
    (hospf : row.ospf_template = some tname)
    (hlook : regLookup reg tname = none) :
    (processL3Row st row).2 = some (PyError.attributeError "clone") := by
  simp [processL3Row, l3AssignAndTemplates, l3TemplateStages, l3AddressStage, l3NetworkDerive, l3OspfStage, l3BfdStage, hA, hZ, hIA, hIZ, ha, hnet, hreg, hospf, hlook]

/-- Loader state with a loaded but empty OSPF template registry. -/
def c6_st : LoaderState :=
  { hosts := demoHosts, interfaces := demoItf, templates_ospf := some [] }

/-- L3 row referencing the unregistered OSPF template "MISSING". -/
def c6_row : L3LinkRow :=
  { a_host := "R1", a_interface := "Gi0/0", z_host := "R2", z_interface := "Gi0/1",
    ospf_template := some "MISSING" }

/-- C6 (counterexample): referencing an unregistered template name fails
with `AttributeError` ('NoneType' object has no attribute 'clone'), not
with `UnknownTemplate`. -/
theorem claim_C6_counterexample :
    (processL3Row c6_st c6_row).2 = some (PyError.attributeError "clone") ∧
    (processL3Row c6_st c6_row).2 ≠ some PyError.unknownTemplate := by
  decide

/-- C6 (witness): the amended theorem applied to the concrete empty
registry. -/
theorem claim_C6_witness :
    (processL3Row c6_st c6_row).2 = some (PyError.attributeError "clone") :=
  claim_C6_amended c6_st c6_row { name := "R1" } { name := "R2" }
    { name := "Gi0/0" } { name := "Gi0/1" } "MISSING" []
    (by decide) (by decide) (by decide) (by decide) rfl rfl rfl rfl rfl

/-! ## Claim C8 -/

/-- C8: when a physical-link row carries a non-null boolean `cdp_enabled`
flag, each end interface whose discovery-protocol config is unset gets it
set from the flag, and each end interface whose config is already set keeps
its existing value (first-write-wins).  This holds regardless of how the
row's LAG section proceeds, since that section never touches discovery
configs. -/
theorem claim_C8 (itf : IfMap) (hosts : HostMap) (dlm : String) (row : PhysicalLinkRow)
    (ah zh : Host) (ai zi : InterfaceModel) (b : Bool)
    (hA : hosts row.a_host = some ah)
    (hIA : itf (ah.name, row.a_interface) = some ai)
    (hZ : hosts row.z_host = some zh)
    (hIZ : itf (zh.name, row.z_interface) = some zi)
    (hcdp : row.cdp_enabled = some (some b)) :
    (((processPhysicalRow itf hosts dlm row).1 (ah.name, row.a_interface)).map discoveryOf =
      if ai.discovery_protocols = none
      then some (some { cdp := some { enabled := some b } })
      else some ai.discovery_protocols) ∧
    (((processPhysicalRow itf hosts dlm row).1 (zh.name, row.z_interface)).map discoveryOf =
      if zi.discovery_protocols = none
      then some (some { cdp := some { enabled := some b } })
      else some zi.discovery_protocols) := by
  have hstep : ∀ q, ((processPhysicalRow itf hosts dlm row).1 q).map discoveryOf =
      ((physicalCdpStage (updIface (updIface itf (ah.name, row.a_interface) fun m =>
          { m with neighbor := some { host := zh.name, interface := zi.name } })
          (zh.name, row.z_interface) fun m =>
          { m with neighbor := some { host := ah.name, interface := ai.name } })
        (ah.name, row.a_interface) (zh.name, row.z_interface) row) q).map discoveryOf := by
    intro q
    simp only [processPhysicalRow, hA, hIA, hZ, hIZ]
    rw [physicalLagStage_discoveryOf]
  constructor
  · rw [hstep]
    by_cases hKK : ((zh.name, row.z_interface) : IfKey) = (ah.name, row.a_interface)
    · have hzi : zi = ai := by
        rw [hKK, hIA] at hIZ
        exact (Option.some_inj.mp hIZ).symm
      subst hzi
      cases hdA : zi.discovery_protocols <;>
        simp [physicalCdpStage, hcdp, updIface, setIface, hKK, hIA,
          setDiscoveryIfUnset, discoveryOf, hdA]
    · cases hdA : ai.discovery_protocols <;>
        simp [physicalCdpStage, hcdp, updIface, setIface, hKK, Ne.symm hKK, hIA, hIZ,
          setDiscoveryIfUnset, discoveryOf, hdA]
  · rw [hstep]
    by_cases hKK : ((zh.name, row.z_interface) : IfKey) = (ah.name, row.a_interface)
    · have hzi : zi = ai := by
        rw [hKK, hIA] at hIZ
        exact (Option.some_inj.mp hIZ).symm
      subst hzi
      cases hdA : zi.discovery_protocols <;>
        simp [physicalCdpStage, hcdp, updIface, setIface, hKK, hIA,
          setDiscoveryIfUnset, discoveryOf, hdA]
    · cases hdZ : zi.discovery_protocols <;>
        simp [physicalCdpStage, hcdp, updIface, setIface, hKK, Ne.symm hKK, hIA, hIZ,
          setDiscoveryIfUnset, discoveryOf, hdZ]

/-- Physical inventory for the C8 witness: R1/Gi0-0 has no discovery
config, R2/Gi0-1 already forbids CDP. -/
def c8_itf : IfMap := fun k =>
  if k = ("R1", "Gi0/0") then some { name := "Gi0/0" }
  else if k = ("R2", "Gi0/1") then
    some { name := "Gi0/1",
           discovery_protocols := some { cdp := some { enabled := some false } } }
  else none

/-- Physical row R1/Gi0-0 — R2/Gi0-1 with `cdp_enabled = True`. -/
def c8_row : PhysicalLinkRow :=
  { a_host := "R1", a_interface := "Gi0/0", z_host := "R2", z_interface := "Gi0/1",
    cdp_enabled := some (some true) }

/-! ## Claim C2 -/

/-- Physical inventory for the C2 counterexample: R1's Port-channel1 is
itself the a-side interface of the link. -/
def c2_itf : IfMap := fun k =>
  if k = ("R1", "Port-channel1") then some { name := "Port-channel1" }
  else if k = ("R2", "Gi0/0") then some { name := "Gi0/0" }
  else if k = ("R2", "Port-channel2") then some { name := "Port-channel2" }
  else none

/-- Physical row whose a-side interface is the Port-channel of its own LAG
group, with LAG groups on both sides. -/
def c2_row : PhysicalLinkRow :=
  { a_host := "R1", a_interface := "Port-channel1", a_lag_group := some 1,
    z_host := "R2", z_interface := "Gi0/0", z_lag_group := some 2 }

/-- C2 (counterexample): this row processes successfully, yet afterwards
the a-side interface's neighbor is `(R2, Port-channel2)` — the LAG
section's Port-channel neighbor write (line 136) overwrote the symmetric
end-interface write of line 103 — while the claim requires
`(R2, Gi0/0)`.  The neighbor relation ends up one-sided. -/
theorem claim_C2_counterexample :
    (processPhysicalRow c2_itf demoHosts "active" c2_row).2 = none ∧
    ((processPhysicalRow c2_itf demoHosts "active" c2_row).1 ("R1", "Port-channel1")).map neighborOf =
      some (some { host := "R2", interface := "Port-channel2" }) ∧
    some (some ({ host := "R2", interface := "Port-channel2" } : InterfaceNeighbor)) ≠
      some (some ({ host := "R2", interface := "Gi0/0" } : InterfaceNeighbor)) := by
  decide

/-- C2 (amended): neighbor relations are written as matched pairs on both
ends of every physical and L3 link row — provided (for physical rows) that
neither end interface is itself one of the Port-channel interfaces named by
the row's LAG groups when both sides carry LAG groups; in that degenerate
case (see the counterexample) the LAG neighbor write overwrites the end
interface's neighbor.  For L3 rows symmetry holds unconditionally. -/
theorem claim_C2_amended :
    (∀ (itf : IfMap) (hosts : HostMap) (dlm : String) (row : PhysicalLinkRow)
        (ah zh : Host) (ai zi : InterfaceModel),
      hosts row.a_host = some ah → itf (ah.name, row.a_interface) = some ai →
      hosts row.z_host = some zh → itf (zh.name, row.z_interface) = some zi →
      ah.name = row.a_host → zh.name = row.z_host →
      ai.name = row.a_interface → zi.name = row.z_interface →
      ((row.a_host, row.a_interface) : IfKey) ≠ (row.z_host, row.z_interface) →
      (∀ ga gz, row.a_lag_group = some ga → row.z_lag_group = some gz →
        ((row.a_host, row.a_interface) : IfKey) ≠ (row.a_host, pcName ga) ∧
        ((row.a_host, row.a_interface) : IfKey) ≠ (row.z_host, pcName gz) ∧
        ((row.z_host, row.z_interface) : IfKey) ≠ (row.a_host, pcName ga) ∧
        ((row.z_host, row.z_interface) : IfKey) ≠ (row.z_host, pcName gz)) →
      ((processPhysicalRow itf hosts dlm row).1 (row.a_host, row.a_interface)).map neighborOf =
          some (some { host := row.z_host, interface := row.z_interface }) ∧
      ((processPhysicalRow itf hosts dlm row).1 (row.z_host, row.z_interface)).map neighborOf =
          some (some { host := row.a_host, interface := row.a_interface })) ∧
    (∀ (st : LoaderState) (row : L3LinkRow) (ah zh : Host) (ai zi : InterfaceModel),
      st.hosts row.a_host = some ah → st.hosts row.z_host = some zh →
      st.interfaces (row.a_host, row.a_interface) = some ai →
      st.interfaces (row.z_host, row.z_interface) = some zi →
      ah.name = row.a_host → zh.name = row.z_host →
      ai.name = row.a_interface → zi.name = row.z_interface →
      ((row.a_host, row.a_interface) : IfKey) ≠ (row.z_host, row.z_interface) →
      (((processL3Row st row).1).interfaces (row.a_host, row.a_interface)).map neighborOf =
          some (some { host := row.z_host, interface := row.z_interface }) ∧
      (((processL3Row st row).1).interfaces (row.z_host, row.z_interface)).map neighborOf =
          some (some { host := row.a_host, interface := row.a_interface })) := by
  constructor
  · intro itf hosts dlm row ah zh ai zi hA hIA hZ hIZ hahn hzhn hain hzin hne hnoalias
    rw [hahn] at hIA
    rw [hzhn] at hIZ
    have hstep : ∀ q, (∀ ga gz, row.a_lag_group = some ga → row.z_lag_group = some gz →
        q ≠ (row.a_host, pcName ga) ∧ q ≠ (row.z_host, pcName gz)) →
        ((processPhysicalRow itf hosts dlm row).1 q).map neighborOf =
        ((updIface (updIface itf (row.a_host, row.a_interface) fun m =>
            { m with neighbor := some { host := row.z_host, interface := row.z_interface } })
            (row.z_host, row.z_interface) fun m =>
            { m with neighbor := some { host := row.a_host, interface := row.a_interface } })
          q).map neighborOf := by
      intro q hq
      simp only [processPhysicalRow, hA, hZ, hahn, hzhn, hIA, hIZ, hain, hzin]
      rw [physicalLagStage_neighborOf _ _ _ _ _ _ _ _ hq]
      rw [physicalCdpStage_neighborOf]
    constructor
    · rw [hstep _ (fun ga gz hga hgz =>
        ⟨(hnoalias ga gz hga hgz).1, (hnoalias ga gz hga hgz).2.1⟩)]
      rw [updIface_app_ne _ hne]
      rw [updIface_app_same hIA]
      simp [neighborOf]
    · rw [hstep _ (fun ga gz hga hgz =>
        ⟨(hnoalias ga gz hga hgz).2.2.1, (hnoalias ga gz hga hgz).2.2.2⟩)]
      have hbase : (updIface itf (row.a_host, row.a_interface) fun m =>
          { m with neighbor := some { host := row.z_host, interface := row.z_interface } })
          (row.z_host, row.z_interface) = some zi := by
        rw [updIface_app_ne _ (Ne.symm hne)]
        exact hIZ
      rw [updIface_app_same hbase]
      simp [neighborOf]
  · intro st row ah zh ai zi hA hZ hIA hIZ hahn hzhn hain hzin hne
    have hstep : ∀ q, (((processL3Row st row).1).interfaces q).map neighborOf =
        ((updIface (updIface st.interfaces (row.a_host, row.a_interface) fun m =>
            { m with neighbor := some { host := row.z_host, interface := row.z_interface } })
          (row.z_host, row.z_interface) fun m =>
            { m with neighbor := some { host := row.a_host, interface := row.a_interface } })
          q).map neighborOf := by
      intro q
      simp only [processL3Row, hA, hZ, hIA, hIZ, hahn, hzhn, hain, hzin]
      rw [l3AssignAndTemplates_neighborOf]
      simp only [ite_apply, apply_ite (Option.map neighborOf),
        neighborOf_upd_ensureIpv4, neighborOf_upd_ensureL3Port, neighborOf_upd_vrf,
        ite_self]
    constructor
    · rw [hstep]
      rw [updIface_app_ne _ hne]
      rw [updIface_app_same hIA]
      simp [neighborOf]
    · rw [hstep]
      have hbase : (updIface st.interfaces (row.a_host, row.a_interface) fun m =>
          { m with neighbor := some { host := row.z_host, interface := row.z_interface } })
          (row.z_host, row.z_interface) = some zi := by
        rw [updIface_app_ne _ (Ne.symm hne)]
        exact hIZ
      rw [updIface_app_same hbase]
      simp [neighborOf]

/-- Inventory for the C2 witness: two link ends plus their Port-channels. -/
def c2w_itf : IfMap := fun k =>
  if k = ("R1", "Gi0/0") then some { name := "Gi0/0" }
  else if k = ("R2", "Gi0/1") then some { name := "Gi0/1" }
  else if k = ("R1", "Port-channel1") then some { name := "Port-channel1" }
  else if k = ("R2", "Port-channel2") then some { name := "Port-channel2" }
  else none

/-- Physical row R1/Gi0-0 — R2/Gi0-1 with LAG groups 1 and 2. -/
def c2w_row : PhysicalLinkRow :=
  { a_host := "R1", a_interface := "Gi0/0", a_lag_group := some 1,
    z_host := "R2", z_interface := "Gi0/1", z_lag_group := some 2 }

/-- L3 row R1/Gi0-0 — R2/Gi0-1. -/
def c2_l3row : L3LinkRow :=
  { a_host := "R1", a_interface := "Gi0/0", z_host := "R2", z_interface := "Gi0/1" }

/-- C2 (witness): the amended theorem applied to a concrete physical row
(with LAG groups on both sides and no aliasing) and a concrete L3 row. -/
theorem claim_C2_amended_witness :
    (((processPhysicalRow c2w_itf demoHosts "active" c2w_row).1 ("R1", "Gi0/0")).map neighborOf =
        some (some { host := "R2", interface := "Gi0/1" }) ∧
      ((processPhysicalRow c2w_itf demoHosts "active" c2w_row).1 ("R2", "Gi0/1")).map neighborOf =
        some (some { host := "R1", interface := "Gi0/0" })) ∧
    ((((processL3Row demoSt c2_l3row).1).interfaces ("R1", "Gi0/0")).map neighborOf =
        some (some { host := "R2", interface := "Gi0/1" }) ∧
      (((processL3Row demoSt c2_l3row).1).interfaces ("R2", "Gi0/1")).map neighborOf =
        some (some { host := "R1", interface := "Gi0/0" })) :=
  ⟨claim_C2_amended.1 c2w_itf demoHosts "active" c2w_row { name := "R1" } { name := "R2" }
      { name := "Gi0/0" } { name := "Gi0/1" }
      (by decide) (by decide) (by decide) (by decide) rfl rfl rfl rfl (by decide)
      (by
        intro ga gz hga hgz
        simp only [c2w_row] at hga hgz
        injection hga with h1
        injection hgz with h2
        subst h1
        subst h2
        refine ⟨by decide, by decide, by decide, by decide⟩),
   claim_C2_amended.2 demoSt c2_l3row { name := "R1" } { name := "R2" }
      { name := "Gi0/0" } { name := "Gi0/1" }
      (by decide) (by decide) (by decide) (by decide) rfl rfl rfl rfl (by decide)⟩

/-- R1/Gi0-0 with no discovery config. -/
def c8_ai : InterfaceModel := { name := "Gi0/0" }

/-- R2/Gi0-1 with CDP already disabled. -/
def c8_zi : InterfaceModel :=
  { name := "Gi0/1", discovery_protocols := some { cdp := some { enabled := some false } } }

/-! ## Claim C7 -/

/-- C7 (amended): a BGP-neighbor row whose host has no BGP process (no
config, no routing config, or no BGP process object) does fail, and the
inventory is left unchanged — but the failure is an `AttributeError` from
dereferencing `host.config.routing.bgp.neighbors` through `None`, not a
dedicated `MissingBgpProcess` error. -/
theorem claim_C7_amended (hosts : HostMap) (peer_groups : List BgpPeerGroup)
    (row : BgpNeighborRow) (host : Host)
    (hH : hosts row.host = some host)
    (hno : host.config = none ∨
      (∃ c, host.config = some c ∧ c.routing = none) ∨
      (∃ c r, host.config = some c ∧ c.routing = some r ∧ r.bgp = none)) :
    ((processBgpNeighborRow hosts peer_groups row).2.map PyError.isAttributeError
        = some true) ∧
    (processBgpNeighborRow hosts peer_groups row).2 ≠ some PyError.missingBgpProcess ∧
    (processBgpNeighborRow hosts peer_groups row).1 = hosts := by
  rcases hno with hc | ⟨c, hc, hr⟩ | ⟨c, r, hc, hr, hb⟩
  · simp [processBgpNeighborRow, hH, hc, PyError.isAttributeError]
  · simp [processBgpNeighborRow, hH, hc, hr, PyError.isAttributeError]
  · simp [processBgpNeighborRow, hH, hc, hr, hb, PyError.isAttributeError]

/-- A host with no config at all. -/
def c7_hosts : HostMap := fun h => if h = "R1" then some { name := "R1" } else none

/-- BGP-neighbor row referencing peer-group RR-CLIENT on that host. -/
def c7_row : BgpNeighborRow := { host := "R1", peer_group := some "RR-CLIENT" }

/-- C7 (counterexample): with no BGP process configured the row fails with
`AttributeError` ('NoneType' object has no attribute 'routing'), not with
`MissingBgpProcess`. -/
theorem claim_C7_counterexample :
    (processBgpNeighborRow c7_hosts [] c7_row).2 = some (PyError.attributeError "routing") ∧
    (processBgpNeighborRow c7_hosts [] c7_row).2 ≠ some PyError.missingBgpProcess := by
  decide

/-- C7 (witness): the amended theorem applied to the concrete config-less
host. -/
theorem claim_C7_amended_witness :
    ((processBgpNeighborRow c7_hosts [] c7_row).2.map PyError.isAttributeError
        = some true) ∧
    (processBgpNeighborRow c7_hosts [] c7_row).2 ≠ some PyError.missingBgpProcess ∧
    (processBgpNeighborRow c7_hosts [] c7_row).1 = c7_hosts :=
  claim_C7_amended c7_hosts [] c7_row { name := "R1" } (by decide) (Or.inl rfl)

/-- C8 (witness): the theorem applied to a concrete row — the unset side
gets CDP enabled, the already-configured side keeps its value. -/
theorem claim_C8_witness :
    (((processPhysicalRow c8_itf demoHosts "active" c8_row).1 ("R1", "Gi0/0")).map discoveryOf =
      if c8_ai.discovery_protocols = none
      then some (some { cdp := some { enabled := some true } })
      else some c8_ai.discovery_protocols) ∧
    (((processPhysicalRow c8_itf demoHosts "active" c8_row).1 ("R2", "Gi0/1")).map discoveryOf =
      if c8_zi.discovery_protocols = none
      then some (some { cdp := some { enabled := some true } })
      else some c8_zi.discovery_protocols) :=
  claim_C8 c8_itf demoHosts "active" c8_row { name := "R1" } { name := "R2" }
    c8_ai c8_zi true (by decide) (by decide) (by decide) (by decide) rfl

end NetModels
